import Mathlib

/-!
# Verification of the iira retrieval / re-ranking / resolution core

Shallow embedding of the algorithmic core of the iira backend:

* `app/services/search_sop.py` — feedback-based re-ranking
  (`rerank_with_feedback`) and the two-stage hybrid search
  (`search_sop_by_query`);
* `app/services/script_resolver.py` — fuzzy tool-to-script binding
  (`resolve_scripts`), including a model of Python's
  `difflib.SequenceMatcher.ratio`;
* `app/agents/resolver_agent.py` — the resolution loop
  (`ResolverAgent.run`), with the calls to `update_incident_history`
  and to the execution agent recorded as explicit event logs.

Modelling conventions: Python floats are modelled as exact rationals
(`ℚ`); Python dicts that the code only reads through `.get` are
modelled as association lists or as `Option`-valued functions; external
collaborators (Qdrant, Redis, the LLM, the database, subprocesses) are
modelled as oracle fields of an environment structure, so that every
theorem quantifies over all of their possible behaviours.
-/

namespace Iira

/-! ## Basic data: scored points and feedback summaries

`ScoredPoint` models a Qdrant `models.ScoredPoint` as consumed by the
code: its `id` (the code normalises ids with `str(...)`, so we use
`String`) and `score`, together with the payload fields that
`search_sop_by_query` reads out of `result.payload` with
`payload.get(..., default)` — the defaults are considered already
applied, so the fields are plain values. -/
structure ScoredPoint where
  id : String
  title : String
  issue : String
  steps : List String
  tags : List String
  score : ℚ
  deriving Repr, DecidableEq

/-- A feedback summary, as returned by `get_feedback_summary` in
`app/utils/redis_client.py`: a Redis hash whose counter fields have
been converted to integers.  Modelled as an association list; absent
fields read as `0`, mirroring `feedback_summary.get(key, 0)`. -/
def FeedbackMap : Type := List (String × Int)

/-- `feedback_summary.get(key, 0)`. -/
def fbGet (fb : FeedbackMap) (key : String) : Int :=
  match List.lookup key fb with
  | some v => v
  | none => 0

/-! ## Python rounding

`round(x, 4)` in Python rounds half to even.  `pyRound` is
round-half-to-even to an integer; `round4` applies it at four decimal
digits. -/

/-- Round half to even (Python's `round` on a real value). -/
def pyRound (x : ℚ) : ℤ :=
  let f := ⌊x⌋
  let frac := x - (f : ℚ)
  if frac < 1/2 then f
  else if 1/2 < frac then f + 1
  else if f % 2 = 0 then f else f + 1

/-- Python's `round(x, 4)`. -/
def round4 (x : ℚ) : ℚ :=
  ((pyRound (x * 10000) : ℤ) : ℚ) / 10000

/-! ## Re-ranking (`rerank_with_feedback`, search_sop.py lines 57–115) -/

/-- `CONFIRMED_BOOST = 0.2`. -/
def CONFIRMED_BOOST : ℚ := 2/10

/-- `PENALTY = -0.15`. -/
def PENALTY : ℚ := -15/100

/-- `MIN_CONFIRM_THRESHOLD = 1`. -/
def MIN_CONFIRM_THRESHOLD : ℤ := 1

/-- The per-candidate score adjustment of `rerank_with_feedback`:
boost when `correct_count > specific_incorrect_count + 1`, penalise
when `specific_incorrect_count > correct_count + 1`, then clip to
`[0, 1]` with `max(0.0, min(1.0, ·))` and round to 4 digits. -/
def adjustScore (fb : FeedbackMap) (result : ScoredPoint) : ℚ :=
  let correct_count := fbGet fb ("correct_agent:" ++ result.id)
  let specific_incorrect_count := fbGet fb ("incorrect_recommendation:" ++ result.id)
  let adjusted_score :=
    if specific_incorrect_count + MIN_CONFIRM_THRESHOLD < correct_count then
      result.score + CONFIRMED_BOOST
    else if correct_count + MIN_CONFIRM_THRESHOLD < specific_incorrect_count then
      result.score + PENALTY
    else result.score
  round4 (max 0 (min 1 adjusted_score))

/-- One step of the stable descending insertion used to model
`list.sort(key=lambda x: x.score, reverse=True)`. -/
def insertByScoreDesc (p : ScoredPoint) : List ScoredPoint → List ScoredPoint
  | [] => [p]
  | q :: qs => if q.score ≤ p.score then p :: q :: qs else q :: insertByScoreDesc p qs

/-- Stable sort by score, descending (CPython's sort is stable; the
claims below do not depend on tie order, only on the multiset of
elements). -/
def sortByScoreDesc : List ScoredPoint → List ScoredPoint
  | [] => []
  | p :: ps => insertByScoreDesc p (sortByScoreDesc ps)

/-- `rerank_with_feedback` (search_sop.py lines 57–115).  The Redis
lookup `get_feedback_summary(get_redis_key_for_incident(...))` is
modelled by the `feedback` argument: `none` when no summary exists for
the incident's fingerprint key (the function returns `None` both when
the hash is absent and on any Redis error), `some fb` otherwise. -/
def rerank_with_feedback (feedback : Option FeedbackMap)
    (initial_results : List ScoredPoint) : List ScoredPoint :=
  if initial_results.isEmpty then []
  else
    match feedback with
    | none => initial_results
    | some fb =>
        sortByScoreDesc
          (initial_results.map (fun r => { r with score := adjustScore fb r }))

/-! ### Helper lemmas about re-ranking -/

theorem length_insertByScoreDesc (p : ScoredPoint) (l : List ScoredPoint) :
    (insertByScoreDesc p l).length = l.length + 1 := by
  induction l with
  | nil => rfl
  | cons q qs ih =>
      unfold insertByScoreDesc
      split
      · simp
      · simp [ih]

theorem length_sortByScoreDesc (l : List ScoredPoint) :
    (sortByScoreDesc l).length = l.length := by
  induction l with
  | nil => rfl
  | cons p ps ih => simp [sortByScoreDesc, length_insertByScoreDesc, ih]

theorem mem_insertByScoreDesc {q p : ScoredPoint} {l : List ScoredPoint} :
    q ∈ insertByScoreDesc p l ↔ q = p ∨ q ∈ l := by
  induction l with
  | nil => simp [insertByScoreDesc]
  | cons r rs ih =>
      unfold insertByScoreDesc
      split
      · simp only [List.mem_cons]
      · simp only [List.mem_cons, ih]
        tauto

theorem mem_sortByScoreDesc {q : ScoredPoint} {l : List ScoredPoint} :
    q ∈ sortByScoreDesc l ↔ q ∈ l := by
  induction l with
  | nil => simp [sortByScoreDesc]
  | cons p ps ih => simp [sortByScoreDesc, mem_insertByScoreDesc, ih]

theorem length_rerank (feedback : Option FeedbackMap) (l : List ScoredPoint) :
    (rerank_with_feedback feedback l).length = l.length := by
  unfold rerank_with_feedback
  split
  · simp_all [List.isEmpty_iff]
  · match feedback with
    | none => rfl
    | some fb => simp [length_sortByScoreDesc]

/-! ### Bounds on `pyRound` and `round4` -/

theorem pyRound_bounds {x : ℚ} (h0 : 0 ≤ x) (h1 : x ≤ 10000) :
    0 ≤ pyRound x ∧ pyRound x ≤ 10000 := by
  have hf0 : (0 : ℤ) ≤ ⌊x⌋ := by
    exact_mod_cast Int.le_floor.mpr (by exact_mod_cast h0)
  have hf1 : ⌊x⌋ ≤ 10000 := by
    have : (⌊x⌋ : ℚ) ≤ 10000 := le_trans (Int.floor_le x) h1
    exact_mod_cast this
  simp only [pyRound]
  split
  · exact ⟨hf0, hf1⟩
  · -- in the remaining branches the fractional part is at least 1/2,
    -- so the floor is at most 9999 and rounding up stays within bounds
    rename_i hlt
    have hfrac : (1:ℚ)/2 ≤ x - (⌊x⌋ : ℚ) := le_of_not_lt hlt
    have hne : ⌊x⌋ ≠ 10000 := by
      intro heq
      rw [heq] at hfrac
      have : x - 10000 ≤ 0 := by linarith
      linarith
    have hf1s : ⌊x⌋ + 1 ≤ 10000 := by omega
    split
    · exact ⟨by omega, hf1s⟩
    · split
      · exact ⟨hf0, hf1⟩
      · exact ⟨by omega, hf1s⟩

theorem round4_bounds {x : ℚ} (h0 : 0 ≤ x) (h1 : x ≤ 1) :
    0 ≤ round4 x ∧ round4 x ≤ 1 := by
  have hb := pyRound_bounds (x := x * 10000) (by positivity) (by linarith)
  unfold round4
  constructor
  · have : (0:ℚ) ≤ ((pyRound (x * 10000) : ℤ) : ℚ) := by exact_mod_cast hb.1
    positivity
  · have : ((pyRound (x * 10000) : ℤ) : ℚ) ≤ 10000 := by exact_mod_cast hb.2
    rw [div_le_one (by norm_num)]
    exact this

theorem adjustScore_bounds (fb : FeedbackMap) (r : ScoredPoint) :
    0 ≤ adjustScore fb r ∧ adjustScore fb r ≤ 1 := by
  unfold adjustScore
  apply round4_bounds
  · exact le_max_left _ _
  · exact max_le (by norm_num) (min_le_left _ _)

/-- C4: every score produced by `rerank_with_feedback` lies in `[0, 1]`,
for every candidate list whose scores lie in the similarity's valid
range `[0, 1]` and every feedback-counter state, regardless of the
boost (+0.2) / penalty (-0.15) contributions: when a feedback summary
exists, the clip `max(0.0, min(1.0, ·))` bounds the adjusted score
unconditionally; when none exists the scores are passed through
unchanged and so stay within the valid range they started in. -/
theorem rerank_scores_in_unit_interval
    (feedback : Option FeedbackMap) (l : List ScoredPoint)
    (hin : ∀ p ∈ l, 0 ≤ p.score ∧ p.score ≤ 1) :
    (∀ q ∈ rerank_with_feedback feedback l, 0 ≤ q.score ∧ q.score ≤ 1) ∧
    (∀ fb : FeedbackMap, ∀ m : List ScoredPoint,
      ∀ q ∈ rerank_with_feedback (some fb) m, 0 ≤ q.score ∧ q.score ≤ 1) := by
  have key : ∀ fb : FeedbackMap, ∀ m : List ScoredPoint,
      ∀ q ∈ rerank_with_feedback (some fb) m, 0 ≤ q.score ∧ q.score ≤ 1 := by
    intro fb m q hq
    unfold rerank_with_feedback at hq
    split at hq
    · simp at hq
    · rw [mem_sortByScoreDesc] at hq
      obtain ⟨r, _, rfl⟩ := List.mem_map.mp hq
      exact adjustScore_bounds fb r
  refine ⟨?_, key⟩
  intro q hq
  unfold rerank_with_feedback at hq
  split at hq
  · simp at hq
  · match feedback with
    | none => exact hin q hq
    | some fb =>
        rw [mem_sortByScoreDesc] at hq
        obtain ⟨r, _, rfl⟩ := List.mem_map.mp hq
        exact adjustScore_bounds fb r

/-- Witness for C4: a concrete candidate with huge positive feedback
counters still ends with a score inside `[0, 1]`. -/
theorem rerank_scores_in_unit_interval_witness :
    (∀ p ∈ [ScoredPoint.mk "P1" "t" "i" [] [] (95/100)],
        0 ≤ p.score ∧ p.score ≤ 1) ∧
    (∀ q ∈ rerank_with_feedback (some [("correct_agent:P1", 1000000)])
        [ScoredPoint.mk "P1" "t" "i" [] [] (95/100)],
        0 ≤ q.score ∧ q.score ≤ 1) :=
  ⟨by
    intro p hp
    rw [List.mem_singleton] at hp
    subst hp
    constructor <;> norm_num,
   (rerank_scores_in_unit_interval (some [("correct_agent:P1", 1000000)])
      [ScoredPoint.mk "P1" "t" "i" [] [] (95/100)]
      (by
        intro p hp
        rw [List.mem_singleton] at hp
        subst hp
        constructor <;> norm_num)).1⟩

/-- C10: when no feedback summary exists for the incident's fingerprint
key, `rerank_with_feedback` is the identity transformation — same
candidates, same order, same scores, no clipping and no rounding — and
on an empty candidate list it returns the empty list. -/
theorem rerank_no_feedback_identity (l : List ScoredPoint)
    (feedback : Option FeedbackMap) :
    rerank_with_feedback none l = l ∧ rerank_with_feedback feedback [] = [] := by
  constructor
  · unfold rerank_with_feedback
    split
    · simp_all [List.isEmpty_iff]
    · rfl
  · rfl

/-! ## Two-stage hybrid search (`search_sop_by_query`, search_sop.py
lines 119–250)

The external collaborators of `search_sop_by_query` are collected in a
`SearchEnv`:

* `feedback` — the Redis feedback summary for this incident's
  fingerprint key (shared by both stages, which call
  `rerank_with_feedback` with the same `query` / `description`);
* `stage1Raw` — the raw Qdrant answer for the direct query vector;
  `none` models an exception anywhere inside the Stage-1 `try` block
  (embedding, search or re-ranking), after which `final_results` is
  still empty and control falls through to Stage 2;
* `hydeDoc` — the hypothetical document produced by
  `generate_hypothetical_sop_for_hyde` (after `.strip()` cleaning);
  `none` models an exception raised during generation, which the
  Stage-2 `try` converts into `return []`;
* `stage2Raw` — the raw Qdrant answer for the HyDE vector; `none`
  models an exception in the Stage-2 search or re-ranking
  (`return []`).

The thresholds loaded by `load_search_thresholds()` are passed as the
arguments `initial_threshold` and `hyde_threshold`.  The rows the code
builds from each surviving point copy `{id, title, issue, steps, tags,
score}` verbatim out of the point and its payload, so the result rows
are represented by the points themselves. -/
structure SearchEnv where
  feedback : Option FeedbackMap
  stage1Raw : Option (List ScoredPoint)
  hydeDoc : Option String
  stage2Raw : Option (List ScoredPoint)

/-- Outcome of one `search_sop_by_query` call: the returned list, the
final value of the `stage_used` variable, and whether control entered
the Stage-2 (HyDE) fallback block.  The straight-line source enters
that block at most once per call, so this flag being `true` is the
same as Stage 2 being attempted exactly once. -/
structure SearchOutcome where
  results : List ScoredPoint
  stageUsed : String
  hydeAttempted : Bool

/-- Python whitespace as stripped by `str.strip()` (ASCII subset; the
incident texts handled by the service are ASCII). -/
def isPySpace (c : Char) : Bool :=
  c = ' ' ∨ c = '\t' ∨ c = '\n' ∨ c = '\x0D' ∨ c = '\x0B' ∨ c = '\x0C'

/-- `s.strip()`: drop leading and trailing whitespace. -/
def pyStrip (s : String) : String :=
  ⟨((s.data.dropWhile isPySpace).reverse.dropWhile isPySpace).reverse⟩

/-- `f"{query or ''} {description or ''}".strip()`. -/
def searchQueryText (query : String) (description : Option String) : String :=
  pyStrip (query ++ " " ++ description.getD "")

/-- The per-stage processing loop: keep a re-ranked result when
`not apply_threshold or score >= threshold` (search_sop.py lines
175–186 and 225–236). -/
def processStage (apply_threshold : Bool) (threshold : ℚ)
    (reranked : List ScoredPoint) : List ScoredPoint :=
  reranked.filter (fun r => !apply_threshold || decide (threshold ≤ r.score))

/-- Stage 1 of `search_sop_by_query` (lines 159–197): re-rank the raw
direct-search results, filter conditionally, and keep them as
`final_results` only when the processed list is non-empty and either
thresholding is off or some processed score clears the initial
threshold. -/
def stage1Results (env : SearchEnv) (apply_threshold : Bool)
    (initial_threshold : ℚ) : List ScoredPoint :=
  match env.stage1Raw with
  | none => []
  | some raw =>
      if !(processStage apply_threshold initial_threshold
            (rerank_with_feedback env.feedback raw)).isEmpty &&
         (!apply_threshold ||
          (processStage apply_threshold initial_threshold
            (rerank_with_feedback env.feedback raw)).any
            (fun r => decide (initial_threshold ≤ r.score))) then
        processStage apply_threshold initial_threshold
          (rerank_with_feedback env.feedback raw)
      else []

/-- `search_sop_by_query` (search_sop.py lines 119–250). -/
def search_sop_by_query (env : SearchEnv) (query : String)
    (description : Option String) (top_k : Nat) (apply_threshold : Bool)
    (initial_threshold hyde_threshold : ℚ) : SearchOutcome :=
  if (searchQueryText query description).isEmpty then
    { results := [], stageUsed := "Unknown", hydeAttempted := false }
  else
    if !(stage1Results env apply_threshold initial_threshold).isEmpty then
      { results := (stage1Results env apply_threshold initial_threshold).take top_k,
        stageUsed := "Direct", hydeAttempted := false }
    else
      match env.hydeDoc with
      | none => { results := [], stageUsed := "HyDE", hydeAttempted := true }
      | some doc =>
          if doc.isEmpty then
            { results := [], stageUsed := "HyDE", hydeAttempted := true }
          else
            match env.stage2Raw with
            | none => { results := [], stageUsed := "HyDE", hydeAttempted := true }
            | some raw =>
                { results := (processStage apply_threshold hyde_threshold
                    (rerank_with_feedback env.feedback raw)).take top_k,
                  stageUsed := "HyDE", hydeAttempted := true }

theorem processStage_false (threshold : ℚ) (l : List ScoredPoint) :
    processStage false threshold l = l :=
  List.filter_eq_self.mpr (fun _ _ => rfl)

theorem mem_processStage_true {threshold : ℚ} {l : List ScoredPoint}
    {r : ScoredPoint} (h : r ∈ processStage true threshold l) :
    r ∈ l ∧ threshold ≤ r.score := by
  unfold processStage at h
  have h2 := List.of_mem_filter h
  simp only [Bool.not_true, Bool.false_or, decide_eq_true_eq] at h2
  exact ⟨List.mem_of_mem_filter h, h2⟩

/-- Exhaustive case analysis of `search_sop_by_query`: either the query
text was empty, or Stage 1 was sufficient, or control reached the HyDE
fallback and the results are either empty or the processed Stage-2
list. -/
theorem search_characterization (env : SearchEnv) (query : String)
    (description : Option String) (top_k : Nat) (apply_threshold : Bool)
    (initial_threshold hyde_threshold : ℚ) :
    search_sop_by_query env query description top_k apply_threshold
        initial_threshold hyde_threshold =
      { results := [], stageUsed := "Unknown", hydeAttempted := false } ∨
    (¬(stage1Results env apply_threshold initial_threshold).isEmpty ∧
      search_sop_by_query env query description top_k apply_threshold
          initial_threshold hyde_threshold =
        { results := (stage1Results env apply_threshold initial_threshold).take top_k,
          stageUsed := "Direct", hydeAttempted := false }) ∨
    ((search_sop_by_query env query description top_k apply_threshold
        initial_threshold hyde_threshold).stageUsed = "HyDE" ∧
      (search_sop_by_query env query description top_k apply_threshold
        initial_threshold hyde_threshold).hydeAttempted = true ∧
      ((search_sop_by_query env query description top_k apply_threshold
          initial_threshold hyde_threshold).results = [] ∨
        ∃ raw, env.stage2Raw = some raw ∧
          (search_sop_by_query env query description top_k apply_threshold
            initial_threshold hyde_threshold).results =
            (processStage apply_threshold hyde_threshold
              (rerank_with_feedback env.feedback raw)).take top_k)) := by
  unfold search_sop_by_query
  split
  · exact Or.inl rfl
  · split
    · rename_i hs1
      simp only [Bool.not_eq_eq_eq_not, Bool.not_true] at hs1
      exact Or.inr (Or.inl ⟨by simp [hs1], rfl⟩)
    · refine Or.inr (Or.inr ?_)
      split
      · exact ⟨rfl, rfl, Or.inl rfl⟩
      · split
        · exact ⟨rfl, rfl, Or.inl rfl⟩
        · split
          · exact ⟨rfl, rfl, Or.inl rfl⟩
          · rename_i raw heq
            exact ⟨rfl, rfl, Or.inr ⟨raw, heq, rfl⟩⟩

/-- Every member of the Stage-1 result list clears `initial_threshold`
when thresholding is on. -/
theorem mem_stage1Results_true {env : SearchEnv} {initial_threshold : ℚ}
    {r : ScoredPoint} (h : r ∈ stage1Results env true initial_threshold) :
    initial_threshold ≤ r.score := by
  unfold stage1Results at h
  split at h
  · simp at h
  · split at h <;>
      first
        | exact (mem_processStage_true h).2
        | exact (mem_processStage_true h.2).2
        | simp at h

/-- C1: with `apply_threshold = true` no returned row scores below the
effective threshold of the stage that produced it (`Direct` ⇒ at least
`initial_threshold`, `HyDE` ⇒ at least `hyde_threshold`); with
`apply_threshold = false` the score filter is disabled and the top
`top_k` re-ranked candidates are returned regardless of score. -/
theorem search_respects_effective_threshold (env : SearchEnv)
    (query : String) (description : Option String) (top_k : Nat)
    (initial_threshold hyde_threshold : ℚ) :
    (∀ r ∈ (search_sop_by_query env query description top_k true
        initial_threshold hyde_threshold).results,
      ((search_sop_by_query env query description top_k true
          initial_threshold hyde_threshold).stageUsed = "Direct" →
        initial_threshold ≤ r.score) ∧
      ((search_sop_by_query env query description top_k true
          initial_threshold hyde_threshold).stageUsed = "HyDE" →
        hyde_threshold ≤ r.score)) ∧
    (∀ raw : List ScoredPoint, env.stage1Raw = some raw → ¬raw.isEmpty →
      (search_sop_by_query env query description top_k false
          initial_threshold hyde_threshold).results =
        (rerank_with_feedback env.feedback raw).take top_k ∨
      (searchQueryText query description).isEmpty) := by
  constructor
  · intro r hr
    rcases search_characterization env query description top_k true
        initial_threshold hyde_threshold with hout | ⟨_, hout⟩ | ⟨hst, _, hres⟩
    · rw [hout] at hr
      simp at hr
    · rw [hout] at hr ⊢
      refine ⟨fun _ => ?_, fun hstage => by simp at hstage⟩
      exact mem_stage1Results_true (List.mem_of_mem_take hr)
    · refine ⟨fun hstage => ?_, fun _ => ?_⟩
      · rw [hst] at hstage
        simp at hstage
      · rcases hres with hres | ⟨raw, _, hres⟩
        · rw [hres] at hr
          simp at hr
        · rw [hres] at hr
          exact (mem_processStage_true (List.mem_of_mem_take hr)).2
  · intro raw hraw hne
    by_cases hq : (searchQueryText query description).isEmpty
    · exact Or.inr hq
    · left
      unfold search_sop_by_query
      rw [if_neg hq]
      have hstage : stage1Results env false initial_threshold =
          rerank_with_feedback env.feedback raw := by
        unfold stage1Results
        rw [hraw]
        simp only [processStage_false]
        rw [if_pos]
        have : ¬(rerank_with_feedback env.feedback raw).isEmpty := by
          rw [List.isEmpty_iff] at hne ⊢
          intro h
          have := length_rerank env.feedback raw
          rw [h] at this
          exact hne (List.length_eq_zero.mp this.symm)
        simp [this]
      rw [hstage]
      have : ¬(rerank_with_feedback env.feedback raw).isEmpty := by
        rw [List.isEmpty_iff] at hne ⊢
        intro h
        have := length_rerank env.feedback raw
        rw [h] at this
        exact hne (List.length_eq_zero.mp this.symm)
      simp [this]

/-- Witness for C1 at a concrete environment: one point of score 1,
thresholds 0, a present Stage-1 answer. -/
theorem search_respects_effective_threshold_witness :
    (∀ r ∈ (search_sop_by_query
        ⟨none, some [ScoredPoint.mk "a" "t" "i" [] [] 1], none, none⟩
        "q" none 3 true 0 0).results,
      ((search_sop_by_query
          ⟨none, some [ScoredPoint.mk "a" "t" "i" [] [] 1], none, none⟩
          "q" none 3 true 0 0).stageUsed = "Direct" → (0:ℚ) ≤ r.score) ∧
      ((search_sop_by_query
          ⟨none, some [ScoredPoint.mk "a" "t" "i" [] [] 1], none, none⟩
          "q" none 3 true 0 0).stageUsed = "HyDE" → (0:ℚ) ≤ r.score)) ∧
    (∀ raw : List ScoredPoint,
      (SearchEnv.mk none (some [ScoredPoint.mk "a" "t" "i" [] [] 1])
          none none).stage1Raw = some raw → ¬raw.isEmpty →
      (search_sop_by_query
          ⟨none, some [ScoredPoint.mk "a" "t" "i" [] [] 1], none, none⟩
          "q" none 3 false 0 0).results =
        (rerank_with_feedback none raw).take 3 ∨
      (searchQueryText "q" none).isEmpty) :=
  search_respects_effective_threshold
    ⟨none, some [ScoredPoint.mk "a" "t" "i" [] [] 1], none, none⟩ "q" none 3 0 0

/-- With thresholding on, the Stage-1 guard collapses: a non-empty
processed list is always kept (each of its members clears the
threshold, so `found_high_confidence_stage1` holds), an empty one is
dropped. -/
theorem stage1Results_true_eq (env : SearchEnv) (raw : List ScoredPoint)
    (t : ℚ) (hraw : env.stage1Raw = some raw) :
    stage1Results env true t =
      if (processStage true t (rerank_with_feedback env.feedback raw)).isEmpty
      then [] else processStage true t (rerank_with_feedback env.feedback raw) := by
  unfold stage1Results
  rw [hraw]
  by_cases hP : (processStage true t (rerank_with_feedback env.feedback raw)).isEmpty
  · simp [hP]
  · rw [if_neg hP]
    obtain ⟨x, hx⟩ := List.exists_mem_of_ne_nil _ (List.isEmpty_iff.not.mp hP)
    have hscore := (mem_processStage_true hx).2
    have hany : (processStage true t (rerank_with_feedback env.feedback raw)).any
        (fun r => decide (t ≤ r.score)) = true :=
      List.any_eq_true.mpr ⟨x, hx, by simpa using hscore⟩
    simp [hP, hany]

/-- C2: when Stage 1 (with thresholding on) processes a present raw
answer down to zero results, `search_sop_by_query` enters the Stage-2
HyDE block — exactly once, as the straight-line source can enter it at
most once — and if the HyDE generation fails (exception or empty
document) or the Stage-2 search raises, the call returns the empty
list rather than propagating an error. -/
theorem stage1_empty_attempts_hyde (env : SearchEnv) (query : String)
    (description : Option String) (top_k : Nat)
    (initial_threshold hyde_threshold : ℚ) (raw : List ScoredPoint)
    (hq : ¬(searchQueryText query description).isEmpty)
    (hraw : env.stage1Raw = some raw)
    (hzero : processStage true initial_threshold
        (rerank_with_feedback env.feedback raw) = []) :
    (search_sop_by_query env query description top_k true
        initial_threshold hyde_threshold).hydeAttempted = true ∧
    ((env.hydeDoc = none ∨ env.hydeDoc = some "" ∨ env.stage2Raw = none) →
      (search_sop_by_query env query description top_k true
          initial_threshold hyde_threshold).results = []) := by
  have hs1 : stage1Results env true initial_threshold = [] := by
    rw [stage1Results_true_eq env raw initial_threshold hraw, hzero]
    simp
  unfold search_sop_by_query
  rw [if_neg (by simpa using hq), hs1]
  simp only [List.isEmpty_nil, Bool.not_true, Bool.false_eq_true, if_false]
  constructor
  · split
    · rfl
    · split
      · rfl
      · split
        · rfl
        · rfl
  · rintro (hd | hd | h2)
    · rw [hd]
    · rw [hd]
      simp [String.isEmpty]
    · rw [h2]
      split
      · rfl
      · split
        · rfl
        · rfl

/-- Witness for C2: one Stage-1 point below the threshold, HyDE
generation failing. -/
theorem stage1_empty_attempts_hyde_witness :
    (search_sop_by_query
        ⟨none, some [ScoredPoint.mk "a" "t" "i" [] [] 0], none, none⟩
        "q" none 3 true 1 1).hydeAttempted = true ∧
    (((SearchEnv.mk none (some [ScoredPoint.mk "a" "t" "i" [] [] 0]) none
          none).hydeDoc = none ∨
      (SearchEnv.mk none (some [ScoredPoint.mk "a" "t" "i" [] [] 0]) none
          none).hydeDoc = some "" ∨
      (SearchEnv.mk none (some [ScoredPoint.mk "a" "t" "i" [] [] 0]) none
          none).stage2Raw = none) →
      (search_sop_by_query
          ⟨none, some [ScoredPoint.mk "a" "t" "i" [] [] 0], none, none⟩
          "q" none 3 true 1 1).results = []) :=
  stage1_empty_attempts_hyde
    ⟨none, some [ScoredPoint.mk "a" "t" "i" [] [] 0], none, none⟩
    "q" none 3 1 1 [ScoredPoint.mk "a" "t" "i" [] [] 0]
    (by decide) rfl (by decide)

/-- The number of Stage-1 results a `search_sop_by_query` call
returned: the length of the result list when the `Direct` stage
produced it, `0` otherwise. -/
def stage1ResultCount (out : SearchOutcome) : Nat :=
  if out.stageUsed = "Direct" then out.results.length else 0

theorem length_filter_imp {α : Type} (p q : α → Bool) (l : List α)
    (h : ∀ a, p a = true → q a = true) :
    (l.filter p).length ≤ (l.filter q).length := by
  induction l with
  | nil => simp
  | cons a as ih =>
      by_cases hp : p a = true
      · rw [List.filter_cons_of_pos hp, List.filter_cons_of_pos (h a hp)]
        simpa using ih
      · rw [List.filter_cons_of_neg (by simpa using hp)]
        by_cases hq : q a = true
        · rw [List.filter_cons_of_pos hq]
          exact le_trans ih (by simp)
        · rw [List.filter_cons_of_neg (by simpa using hq)]
          exact ih

theorem processStage_mono {t1 t2 : ℚ} (h : t1 ≤ t2) (l : List ScoredPoint) :
    (processStage true t2 l).length ≤ (processStage true t1 l).length := by
  apply length_filter_imp
  intro a ha
  simp only [Bool.not_true, Bool.false_or, decide_eq_true_eq] at ha ⊢
  exact le_trans h ha

theorem stage1ResultCount_of_hyde {out : SearchOutcome}
    (h : out.stageUsed = "HyDE") : stage1ResultCount out = 0 := by
  unfold stage1ResultCount
  rw [h]
  rw [if_neg (by decide)]

/-- C9: for a fixed environment, query and feedback state, raising the
initial search threshold never increases the number of Stage-1 results
returned (with `apply_threshold = true`). -/
theorem stage1_count_antitone_in_threshold (env : SearchEnv)
    (query : String) (description : Option String) (top_k : Nat)
    (hyde_threshold : ℚ) {t1 t2 : ℚ} (h : t1 ≤ t2) :
    stage1ResultCount (search_sop_by_query env query description top_k true
        t2 hyde_threshold) ≤
    stage1ResultCount (search_sop_by_query env query description top_k true
        t1 hyde_threshold) := by
  by_cases hq : (searchQueryText query description).isEmpty
  · unfold search_sop_by_query
    rw [if_pos hq, if_pos hq]
  · match h1 : env.stage1Raw with
    | none =>
        have hnone : ∀ t : ℚ, stage1Results env true t = [] := by
          intro t
          unfold stage1Results
          rw [h1]
        unfold search_sop_by_query
        rw [if_neg hq, if_neg hq, hnone, hnone]
    | some raw =>
        by_cases hs2 : (processStage true t2
            (rerank_with_feedback env.feedback raw)).isEmpty
        · -- the higher threshold empties Stage 1, so its count is 0
          have e2 : stage1Results env true t2 = [] := by
            rw [stage1Results_true_eq env raw t2 h1, if_pos hs2]
          rcases search_characterization env query description top_k true
              t2 hyde_threshold with hout | ⟨hne, _⟩ | ⟨hst, _, _⟩
          · rw [hout]
            exact Nat.zero_le _
          · rw [e2] at hne
            simp at hne
          · rw [stage1ResultCount_of_hyde hst]
            exact Nat.zero_le _
        · -- both processed lists are non-empty: both calls stay Direct
          have hlen : (processStage true t2
              (rerank_with_feedback env.feedback raw)).length ≤
              (processStage true t1
                (rerank_with_feedback env.feedback raw)).length :=
            processStage_mono h _
          have hs1 : ¬(processStage true t1
              (rerank_with_feedback env.feedback raw)).isEmpty := by
            rw [List.isEmpty_iff] at hs2 ⊢
            intro hnil
            rw [hnil] at hlen
            simp only [List.length_nil, Nat.le_zero] at hlen
            exact hs2 (List.length_eq_zero.mp hlen)
          have e2 : stage1Results env true t2 =
              processStage true t2 (rerank_with_feedback env.feedback raw) := by
            rw [stage1Results_true_eq env raw t2 h1, if_neg hs2]
          have e1 : stage1Results env true t1 =
              processStage true t1 (rerank_with_feedback env.feedback raw) := by
            rw [stage1Results_true_eq env raw t1 h1, if_neg hs1]
          unfold search_sop_by_query
          rw [if_neg hq, if_neg hq, e1, e2]
          rw [if_pos (by simpa using hs2), if_pos (by simpa using hs1)]
          unfold stage1ResultCount
          rw [if_pos rfl, if_pos rfl]
          simp only [List.length_take]
          exact min_le_min (Nat.le_refl top_k) hlen

/-- Witness for C9: thresholds 0 ≤ 1 on a one-point environment. -/
theorem stage1_count_antitone_in_threshold_witness :
    stage1ResultCount (search_sop_by_query
        ⟨none, some [ScoredPoint.mk "a" "t" "i" [] [] 1], none, none⟩
        "q" none 3 true 1 0) ≤
    stage1ResultCount (search_sop_by_query
        ⟨none, some [ScoredPoint.mk "a" "t" "i" [] [] 1], none, none⟩
        "q" none 3 true 0 0) :=
  stage1_count_antitone_in_threshold
    ⟨none, some [ScoredPoint.mk "a" "t" "i" [] [] 1], none, none⟩
    "q" none 3 0 (by norm_num)

/-! ## A model of `difflib.SequenceMatcher.ratio`

`resolve_scripts` scores each (tool name, script name) pair with
`difflib.SequenceMatcher(None, a, b).ratio()`.  `ratio` is
`2 * M / (len(a) + len(b))` where `M` is the total size of the
matching blocks found by recursively taking the longest matching
block.  With no junk (the names compared are far below the 200-element
autojunk limit), CPython's `find_longest_match(alo, ahi, blo, bhi)`
returns the triple `(i, j, k)` such that `a[i:i+k] == b[j:j+k]`, `k`
is maximal, and among the maximal blocks `i` is minimal and then `j`
is minimal — which is what `findLongestMatch` computes below by
scanning start positions in lexicographic order and keeping the first
strictly longer common prefix. -/

namespace Difflib

/-- Length of the longest common prefix of two character lists. -/
def commonPrefixLen : List Char → List Char → Nat
  | a :: as, b :: bs => if a = b then commonPrefixLen as bs + 1 else 0
  | _, _ => 0

/-- Inner loop of `find_longest_match`: scan the start position `j`
over every suffix of `b` (including the empty one), keeping the first
strictly longer common prefix with the fixed suffix `sufA` of `a`
starting at `i`. -/
def bestAtJ (sufA : List Char) (i : Nat) :
    Nat → List Char → Nat × Nat × Nat → Nat × Nat × Nat
  | j, sufB, best =>
      match sufB with
      | [] =>
          if best.2.2 < commonPrefixLen sufA sufB then
            (i, j, commonPrefixLen sufA sufB)
          else best
      | _ :: rest =>
          bestAtJ sufA i (j + 1) rest
            (if best.2.2 < commonPrefixLen sufA sufB then
              (i, j, commonPrefixLen sufA sufB)
            else best)

/-- Outer loop of `find_longest_match`: scan the start position `i`
over every suffix of `a`. -/
def bestAtI (b : List Char) :
    Nat → List Char → Nat × Nat × Nat → Nat × Nat × Nat
  | i, sufA, best =>
      match sufA with
      | [] => bestAtJ sufA i 0 b best
      | _ :: rest => bestAtI b (i + 1) rest (bestAtJ sufA i 0 b best)

/-- `find_longest_match` over whole sequences (no junk): the longest
matching block `(i, j, k)` with `a[i:i+k] == b[j:j+k]`, `k` maximal,
and among the maximal blocks `i` minimal and then `j` minimal — start
positions are visited in lexicographic order and a candidate replaces
the best only when strictly longer. -/
def findLongestMatch (a b : List Char) : Nat × Nat × Nat :=
  bestAtI b 0 a (0, 0, 0)

/-- Total size of the matching blocks (`get_matching_blocks` summed):
recursively split around the longest match.  The fuel argument only
serves termination; `totalMatches` supplies enough fuel, since every
recursive call strictly shrinks the combined length. -/
def matchingTotal : Nat → List Char → List Char → Nat
  | 0, _, _ => 0
  | fuel + 1, a, b =>
      if (findLongestMatch a b).2.2 = 0 then 0
      else
        matchingTotal fuel (a.take (findLongestMatch a b).1)
            (b.take (findLongestMatch a b).2.1) +
          (findLongestMatch a b).2.2 +
          matchingTotal fuel
            (a.drop ((findLongestMatch a b).1 + (findLongestMatch a b).2.2))
            (b.drop ((findLongestMatch a b).2.1 + (findLongestMatch a b).2.2))

/-- `M`: the number of matched elements across all matching blocks. -/
def totalMatches (a b : List Char) : Nat :=
  matchingTotal (a.length + b.length + 1) a b

/-- `SequenceMatcher.ratio() = 2.0 * M / T` with `T = len(a)+len(b)`
(and `1.0` when both are empty, per `_calculate_ratio`). -/
def ratio (sa sb : String) : ℚ :=
  if sa.data.length + sb.data.length = 0 then 1
  else (2 * totalMatches sa.data sb.data : ℚ) /
    ((sa.data.length + sb.data.length : Nat) : ℚ)

end Difflib

/-! ## Script resolution (`resolve_scripts`, script_resolver.py lines
3–96) -/

/-- `str.lower()` (ASCII; script and tool names are ASCII). -/
def pyLower (s : String) : String :=
  ⟨s.data.map Char.toLower⟩

/-- Python's substring containment `pat in s`. -/
def isSubstringOf (pat : List Char) : List Char → Bool
  | [] => pat.isEmpty
  | c :: cs => pat.isPrefixOf (c :: cs) || isSubstringOf pat cs

/-- A script parameter row as stored with a script:
`{param_name, param_type, required, default_value}`. -/
structure ParamSpec where
  param_name : String
  param_type : String
  required : Bool
  default_value : Option String
  deriving Repr, DecidableEq

/-- A registered script as consumed by `resolve_scripts`:
`{id, name, params}` (the remaining columns are not read). -/
structure Script where
  id : String
  name : String
  params : List ParamSpec
  deriving Repr, DecidableEq

/-- One step of the LLM plan: `{description, tool}`, each possibly
absent.  An absent tool and an empty-string tool are both falsy in
`if not tool_name`. -/
structure PlanStep where
  description : Option String
  tool : Option String
  deriving Repr, DecidableEq

/-- The `script_id` field of a resolved step: Python `None` for a
manual step, the literal string `"Not Found"` for a failed match, or
the bound script's id. -/
inductive ResolvedId where
  | manual
  | notFound
  | found (id : String)
  deriving Repr, DecidableEq

/-- A row of the resolved workflow. -/
structure ResolvedStep where
  script_id : ResolvedId
  step_description : Option String
  script_name : Option String
  parameters : List ParamSpec
  deriving Repr, DecidableEq

/-- `if not tool_name:` — absent or empty tool name. -/
def toolAbsent (tool : Option String) : Bool :=
  match tool with
  | none => true
  | some s => s.isEmpty

/-- The similarity the inner loop assigns to one script:
`SequenceMatcher(None, tool.lower(), name.lower()).ratio()`, forced to
`1.0` when the lower-cased tool name occurs literally inside the
lower-cased script name. -/
def similarity (tool_name script_name : String) : ℚ :=
  if isSubstringOf (pyLower tool_name).data (pyLower script_name).data then 1
  else Difflib.ratio (pyLower tool_name) (pyLower script_name)

/-- The `best_match` / `highest_score` fold over the registry
(`similarity_score > highest_score` keeps the first-seen best,
starting from `None` / `0.0`). -/
def bestMatch (tool_name : String) (available_scripts : List Script) :
    Option Script × ℚ :=
  available_scripts.foldl (fun acc script =>
    if acc.2 < similarity tool_name script.name then
      (some script, similarity tool_name script.name)
    else acc) (none, 0)

/-- Resolution of a single plan step (`resolve_scripts` loop body):
manual when the tool is falsy, bound to the best match when
`highest_score >= 0.5 and best_match`, `"Not Found"` otherwise. -/
def resolveStep (available_scripts : List Script) (step : PlanStep) :
    ResolvedStep :=
  if toolAbsent step.tool then
    { script_id := .manual, step_description := step.description,
      script_name := none, parameters := [] }
  else
    match bestMatch (step.tool.getD "") available_scripts with
    | (some best, highest_score) =>
        if 1/2 ≤ highest_score then
          { script_id := .found best.id, step_description := step.description,
            script_name := some best.name, parameters := best.params }
        else
          { script_id := .notFound, step_description := step.description,
            script_name := none, parameters := [] }
    | (none, _) =>
        { script_id := .notFound, step_description := step.description,
          script_name := none, parameters := [] }

/-- `resolve_scripts` (script_resolver.py lines 3–96). -/
def resolve_scripts (llm_plan : List PlanStep)
    (available_scripts : List Script) : List ResolvedStep :=
  llm_plan.map (resolveStep available_scripts)

/-! ### The best-match fold invariants -/

theorem bestMatch_foldl_ge (tool_name : String) (l : List Script)
    (acc : Option Script × ℚ) :
    acc.2 ≤ (l.foldl (fun acc script =>
      if acc.2 < similarity tool_name script.name then
        (some script, similarity tool_name script.name)
      else acc) acc).2 := by
  induction l generalizing acc with
  | nil => exact le_refl _
  | cons s ss ih =>
      simp only [List.foldl_cons]
      refine le_trans ?_ (ih _)
      by_cases hlt : acc.2 < similarity tool_name s.name
      · rw [if_pos hlt]
        exact le_of_lt hlt
      · rw [if_neg hlt]

theorem bestMatch_ge_all (tool_name : String) (l : List Script) :
    ∀ s ∈ l, similarity tool_name s.name ≤ (bestMatch tool_name l).2 := by
  unfold bestMatch
  suffices h : ∀ acc : Option Script × ℚ, ∀ s ∈ l,
      similarity tool_name s.name ≤ (l.foldl (fun acc script =>
        if acc.2 < similarity tool_name script.name then
          (some script, similarity tool_name script.name)
        else acc) acc).2 by
    exact h (none, 0)
  induction l with
  | nil => intro _ s hs; simp at hs
  | cons a as ih =>
      intro acc s hs
      simp only [List.foldl_cons]
      rcases List.mem_cons.mp hs with rfl | hs2
      · refine le_trans ?_ (bestMatch_foldl_ge tool_name as _)
        by_cases hlt : acc.2 < similarity tool_name s.name
        · rw [if_pos hlt]
        · rw [if_neg hlt]
          exact le_of_not_lt hlt
      · exact ih _ s hs2

theorem bestMatch_none_fold (tool_name : String) (l : List Script) :
    ∀ acc : Option Script × ℚ,
      (l.foldl (fun acc script =>
        if acc.2 < similarity tool_name script.name then
          (some script, similarity tool_name script.name)
        else acc) acc).1 = none →
      (l.foldl (fun acc script =>
        if acc.2 < similarity tool_name script.name then
          (some script, similarity tool_name script.name)
        else acc) acc) = acc := by
  induction l with
  | nil => intro acc _; rfl
  | cons a as ih =>
      intro acc hnone
      simp only [List.foldl_cons] at hnone ⊢
      by_cases hlt : acc.2 < similarity tool_name a.name
      · rw [if_pos hlt] at hnone ⊢
        have := ih _ hnone
        rw [this] at hnone
        simp at hnone
      · rw [if_neg hlt] at hnone ⊢
        exact ih _ hnone

theorem bestMatch_some_fold (tool_name : String) (l : List Script)
    (m : Script) :
    ∀ acc : Option Script × ℚ,
      (l.foldl (fun acc script =>
        if acc.2 < similarity tool_name script.name then
          (some script, similarity tool_name script.name)
        else acc) acc).1 = some m →
      (acc.1 = some m ∧ (l.foldl (fun acc script =>
        if acc.2 < similarity tool_name script.name then
          (some script, similarity tool_name script.name)
        else acc) acc).2 = acc.2) ∨
      (m ∈ l ∧ (l.foldl (fun acc script =>
        if acc.2 < similarity tool_name script.name then
          (some script, similarity tool_name script.name)
        else acc) acc).2 = similarity tool_name m.name) := by
  induction l with
  | nil => intro acc h; exact Or.inl ⟨h, rfl⟩
  | cons a as ih =>
      intro acc h
      simp only [List.foldl_cons] at h ⊢
      by_cases hlt : acc.2 < similarity tool_name a.name
      · rw [if_pos hlt] at h ⊢
        rcases ih _ h with ⟨h1, h2⟩ | ⟨h1, h2⟩
        · simp only at h1
          have hma : m = a := by
            have := h1.symm
            injection this
          subst hma
          exact Or.inr ⟨List.mem_cons_self _ _, by simpa using h2⟩
        · exact Or.inr ⟨List.mem_cons_of_mem _ h1, h2⟩
      · rw [if_neg hlt] at h ⊢
        rcases ih _ h with ⟨h1, h2⟩ | ⟨h1, h2⟩
        · exact Or.inl ⟨h1, h2⟩
        · exact Or.inr ⟨List.mem_cons_of_mem _ h1, h2⟩

theorem bestMatch_none (tool_name : String) (l : List Script)
    (h : (bestMatch tool_name l).1 = none) : bestMatch tool_name l = (none, 0) :=
  bestMatch_none_fold tool_name l (none, 0) h

theorem bestMatch_some (tool_name : String) (l : List Script) (m : Script)
    (h : (bestMatch tool_name l).1 = some m) :
    m ∈ l ∧ similarity tool_name m.name = (bestMatch tool_name l).2 := by
  rcases bestMatch_some_fold tool_name l m (none, 0) h with ⟨h1, _⟩ | ⟨h1, h2⟩
  · simp at h1
  · exact ⟨h1, h2.symm⟩

/-- C5: for a plan step with a non-empty tool name, the similarity is
forced to `1` whenever the lower-cased tool name occurs literally
inside the lower-cased script name; the fold keeps the single
highest-scoring script of the registry; the step is bound to that
script exactly when the best score reaches `0.5`, and is otherwise
marked `"Not Found"` with a null script name; a step with an
absent/empty tool name bypasses matching and comes out manual; and
`resolve_scripts` is the per-step map of this resolution. -/
theorem resolve_scripts_spec (tool_name : String)
    (hT : ¬tool_name.isEmpty = true) (available_scripts : List Script)
    (step : PlanStep) (hstep : step.tool = some tool_name) :
    (∀ s ∈ available_scripts,
        isSubstringOf (pyLower tool_name).data (pyLower s.name).data = true →
        similarity tool_name s.name = 1) ∧
    (∀ s ∈ available_scripts,
        similarity tool_name s.name ≤ (bestMatch tool_name available_scripts).2) ∧
    (∀ m : Script, (bestMatch tool_name available_scripts).1 = some m →
        m ∈ available_scripts ∧
        similarity tool_name m.name = (bestMatch tool_name available_scripts).2 ∧
        (1/2 ≤ (bestMatch tool_name available_scripts).2 →
          resolveStep available_scripts step =
            { script_id := .found m.id, step_description := step.description,
              script_name := some m.name, parameters := m.params })) ∧
    (((bestMatch tool_name available_scripts).1 = none ∨
        (bestMatch tool_name available_scripts).2 < 1/2) →
      resolveStep available_scripts step =
        { script_id := .notFound, step_description := step.description,
          script_name := none, parameters := [] }) ∧
    (∀ st : PlanStep, toolAbsent st.tool = true →
      resolveStep available_scripts st =
        { script_id := .manual, step_description := st.description,
          script_name := none, parameters := [] }) ∧
    (∀ llm_plan : List PlanStep,
      resolve_scripts llm_plan available_scripts =
        llm_plan.map (resolveStep available_scripts)) := by
  have htool : toolAbsent step.tool = false := by
    rw [hstep]
    unfold toolAbsent
    simpa using hT
  have hgetD : step.tool.getD "" = tool_name := by rw [hstep]; rfl
  refine ⟨?_, bestMatch_ge_all tool_name available_scripts, ?_, ?_, ?_, fun _ => rfl⟩
  · intro s _ hsub
    unfold similarity
    rw [if_pos hsub]
  · intro m hm
    obtain ⟨hmem, hsim⟩ := bestMatch_some tool_name available_scripts m hm
    refine ⟨hmem, hsim, ?_⟩
    intro hscore
    unfold resolveStep
    rw [htool]
    rw [if_neg (by simp)]
    rw [hgetD]
    rcases hbm : bestMatch tool_name available_scripts with ⟨bo, bs⟩
    rw [hbm] at hm hscore
    simp only at hm hscore
    subst hm
    simp only
    rw [if_pos hscore]
  · intro hfail
    unfold resolveStep
    rw [htool]
    rw [if_neg (by simp)]
    rw [hgetD]
    rcases hbm : bestMatch tool_name available_scripts with ⟨bo, bs⟩
    rw [hbm] at hfail
    simp only at hfail
    match bo with
    | none => simp only
    | some b =>
        rcases hfail with hfail | hfail
        · exact absurd hfail (by simp)
        · simp only
          rw [if_neg (not_le.mpr hfail)]
  · intro st hst
    unfold resolveStep
    rw [hst]
    simp

/-- Witness for C5 at a concrete step and registry. -/
theorem resolve_scripts_spec_witness :
    (∀ s ∈ [Script.mk "1" "restart_service" []],
        isSubstringOf (pyLower "restart").data (pyLower s.name).data = true →
        similarity "restart" s.name = 1) ∧
    (∀ s ∈ [Script.mk "1" "restart_service" []],
        similarity "restart" s.name ≤
          (bestMatch "restart" [Script.mk "1" "restart_service" []]).2) ∧
    (∀ m : Script,
        (bestMatch "restart" [Script.mk "1" "restart_service" []]).1 = some m →
        m ∈ [Script.mk "1" "restart_service" []] ∧
        similarity "restart" m.name =
          (bestMatch "restart" [Script.mk "1" "restart_service" []]).2 ∧
        (1/2 ≤ (bestMatch "restart" [Script.mk "1" "restart_service" []]).2 →
          resolveStep [Script.mk "1" "restart_service" []]
              (PlanStep.mk (some "d") (some "restart")) =
            { script_id := .found m.id, step_description := some "d",
              script_name := some m.name, parameters := m.params })) ∧
    (((bestMatch "restart" [Script.mk "1" "restart_service" []]).1 = none ∨
        (bestMatch "restart" [Script.mk "1" "restart_service" []]).2 < 1/2) →
      resolveStep [Script.mk "1" "restart_service" []]
          (PlanStep.mk (some "d") (some "restart")) =
        { script_id := .notFound, step_description := some "d",
          script_name := none, parameters := [] }) ∧
    (∀ st : PlanStep, toolAbsent st.tool = true →
      resolveStep [Script.mk "1" "restart_service" []] st =
        { script_id := .manual, step_description := st.description,
          script_name := none, parameters := [] }) ∧
    (∀ llm_plan : List PlanStep,
      resolve_scripts llm_plan [Script.mk "1" "restart_service" []] =
        llm_plan.map (resolveStep [Script.mk "1" "restart_service" []])) :=
  resolve_scripts_spec "restart" (by decide) [Script.mk "1" "restart_service" []]
    (PlanStep.mk (some "d") (some "restart")) rfl

/-! ### Scenario B: the concrete pair of C8

The lower-cased tool name `"restart-webserver"` is not a literal
substring of `"restart_web_server"` (hyphen vs underscore), so the
exact-match override does not fire and the pair is scored by the
sequence ratio.  The longest-match computation over the full pair is
evaluated one outer-loop level at a time (one lemma per start position
in `a`), because a single kernel evaluation of the whole double scan
nests too deeply. -/

set_option maxRecDepth 4000 in
theorem scenarioB_lvl0 :
    Difflib.bestAtJ ['r', 'e', 's', 't', 'a', 'r', 't', '-', 'w', 'e', 'b', 's', 'e', 'r', 'v', 'e', 'r'] 0 0
      ['r', 'e', 's', 't', 'a', 'r', 't', '_', 'w', 'e', 'b', '_', 's', 'e', 'r', 'v', 'e', 'r']
      (0, 0, 0) = (0, 0, 7) := by
  decide

set_option maxRecDepth 4000 in
theorem scenarioB_lvl1 :
    Difflib.bestAtJ ['e', 's', 't', 'a', 'r', 't', '-', 'w', 'e', 'b', 's', 'e', 'r', 'v', 'e', 'r'] 1 0
      ['r', 'e', 's', 't', 'a', 'r', 't', '_', 'w', 'e', 'b', '_', 's', 'e', 'r', 'v', 'e', 'r']
      (0, 0, 7) = (0, 0, 7) := by
  decide

set_option maxRecDepth 4000 in
theorem scenarioB_lvl2 :
    Difflib.bestAtJ ['s', 't', 'a', 'r', 't', '-', 'w', 'e', 'b', 's', 'e', 'r', 'v', 'e', 'r'] 2 0
      ['r', 'e', 's', 't', 'a', 'r', 't', '_', 'w', 'e', 'b', '_', 's', 'e', 'r', 'v', 'e', 'r']
      (0, 0, 7) = (0, 0, 7) := by
  decide

set_option maxRecDepth 4000 in
theorem scenarioB_lvl3 :
    Difflib.bestAtJ ['t', 'a', 'r', 't', '-', 'w', 'e', 'b', 's', 'e', 'r', 'v', 'e', 'r'] 3 0
      ['r', 'e', 's', 't', 'a', 'r', 't', '_', 'w', 'e', 'b', '_', 's', 'e', 'r', 'v', 'e', 'r']
      (0, 0, 7) = (0, 0, 7) := by
  decide

set_option maxRecDepth 4000 in
theorem scenarioB_lvl4 :
    Difflib.bestAtJ ['a', 'r', 't', '-', 'w', 'e', 'b', 's', 'e', 'r', 'v', 'e', 'r'] 4 0
      ['r', 'e', 's', 't', 'a', 'r', 't', '_', 'w', 'e', 'b', '_', 's', 'e', 'r', 'v', 'e', 'r']
      (0, 0, 7) = (0, 0, 7) := by
  decide

set_option maxRecDepth 4000 in
theorem scenarioB_lvl5 :
    Difflib.bestAtJ ['r', 't', '-', 'w', 'e', 'b', 's', 'e', 'r', 'v', 'e', 'r'] 5 0
      ['r', 'e', 's', 't', 'a', 'r', 't', '_', 'w', 'e', 'b', '_', 's', 'e', 'r', 'v', 'e', 'r']
      (0, 0, 7) = (0, 0, 7) := by
  decide

set_option maxRecDepth 4000 in
theorem scenarioB_lvl6 :
    Difflib.bestAtJ ['t', '-', 'w', 'e', 'b', 's', 'e', 'r', 'v', 'e', 'r'] 6 0
      ['r', 'e', 's', 't', 'a', 'r', 't', '_', 'w', 'e', 'b', '_', 's', 'e', 'r', 'v', 'e', 'r']
      (0, 0, 7) = (0, 0, 7) := by
  decide

set_option maxRecDepth 4000 in
theorem scenarioB_lvl7 :
    Difflib.bestAtJ ['-', 'w', 'e', 'b', 's', 'e', 'r', 'v', 'e', 'r'] 7 0
      ['r', 'e', 's', 't', 'a', 'r', 't', '_', 'w', 'e', 'b', '_', 's', 'e', 'r', 'v', 'e', 'r']
      (0, 0, 7) = (0, 0, 7) := by
  decide

set_option maxRecDepth 4000 in
theorem scenarioB_lvl8 :
    Difflib.bestAtJ ['w', 'e', 'b', 's', 'e', 'r', 'v', 'e', 'r'] 8 0
      ['r', 'e', 's', 't', 'a', 'r', 't', '_', 'w', 'e', 'b', '_', 's', 'e', 'r', 'v', 'e', 'r']
      (0, 0, 7) = (0, 0, 7) := by
  decide

set_option maxRecDepth 4000 in
theorem scenarioB_lvl9 :
    Difflib.bestAtJ ['e', 'b', 's', 'e', 'r', 'v', 'e', 'r'] 9 0
      ['r', 'e', 's', 't', 'a', 'r', 't', '_', 'w', 'e', 'b', '_', 's', 'e', 'r', 'v', 'e', 'r']
      (0, 0, 7) = (0, 0, 7) := by
  decide

set_option maxRecDepth 4000 in
theorem scenarioB_lvl10 :
    Difflib.bestAtJ ['b', 's', 'e', 'r', 'v', 'e', 'r'] 10 0
      ['r', 'e', 's', 't', 'a', 'r', 't', '_', 'w', 'e', 'b', '_', 's', 'e', 'r', 'v', 'e', 'r']
      (0, 0, 7) = (0, 0, 7) := by
  decide

set_option maxRecDepth 4000 in
theorem scenarioB_lvl11 :
    Difflib.bestAtJ ['s', 'e', 'r', 'v', 'e', 'r'] 11 0
      ['r', 'e', 's', 't', 'a', 'r', 't', '_', 'w', 'e', 'b', '_', 's', 'e', 'r', 'v', 'e', 'r']
      (0, 0, 7) = (0, 0, 7) := by
  decide

set_option maxRecDepth 4000 in
theorem scenarioB_lvl12 :
    Difflib.bestAtJ ['e', 'r', 'v', 'e', 'r'] 12 0
      ['r', 'e', 's', 't', 'a', 'r', 't', '_', 'w', 'e', 'b', '_', 's', 'e', 'r', 'v', 'e', 'r']
      (0, 0, 7) = (0, 0, 7) := by
  decide

set_option maxRecDepth 4000 in
theorem scenarioB_lvl13 :
    Difflib.bestAtJ ['r', 'v', 'e', 'r'] 13 0
      ['r', 'e', 's', 't', 'a', 'r', 't', '_', 'w', 'e', 'b', '_', 's', 'e', 'r', 'v', 'e', 'r']
      (0, 0, 7) = (0, 0, 7) := by
  decide

set_option maxRecDepth 4000 in
theorem scenarioB_lvl14 :
    Difflib.bestAtJ ['v', 'e', 'r'] 14 0
      ['r', 'e', 's', 't', 'a', 'r', 't', '_', 'w', 'e', 'b', '_', 's', 'e', 'r', 'v', 'e', 'r']
      (0, 0, 7) = (0, 0, 7) := by
  decide

set_option maxRecDepth 4000 in
theorem scenarioB_lvl15 :
    Difflib.bestAtJ ['e', 'r'] 15 0
      ['r', 'e', 's', 't', 'a', 'r', 't', '_', 'w', 'e', 'b', '_', 's', 'e', 'r', 'v', 'e', 'r']
      (0, 0, 7) = (0, 0, 7) := by
  decide

set_option maxRecDepth 4000 in
theorem scenarioB_lvl16 :
    Difflib.bestAtJ ['r'] 16 0
      ['r', 'e', 's', 't', 'a', 'r', 't', '_', 'w', 'e', 'b', '_', 's', 'e', 'r', 'v', 'e', 'r']
      (0, 0, 7) = (0, 0, 7) := by
  decide

set_option maxRecDepth 4000 in
theorem scenarioB_lvl17 :
    Difflib.bestAtJ [] 17 0
      ['r', 'e', 's', 't', 'a', 'r', 't', '_', 'w', 'e', 'b', '_', 's', 'e', 'r', 'v', 'e', 'r']
      (0, 0, 7) = (0, 0, 7) := by
  decide

theorem scenarioB_flm :
    Difflib.findLongestMatch ['r', 'e', 's', 't', 'a', 'r', 't', '-', 'w', 'e', 'b', 's', 'e', 'r', 'v', 'e', 'r']
      ['r', 'e', 's', 't', 'a', 'r', 't', '_', 'w', 'e', 'b', '_', 's', 'e', 'r', 'v', 'e', 'r'] = (0, 0, 7) := by
  simp only [Nat.reduceAdd, Difflib.findLongestMatch, Difflib.bestAtI, scenarioB_lvl0, scenarioB_lvl1, scenarioB_lvl2, scenarioB_lvl3, scenarioB_lvl4, scenarioB_lvl5, scenarioB_lvl6, scenarioB_lvl7, scenarioB_lvl8, scenarioB_lvl9, scenarioB_lvl10, scenarioB_lvl11, scenarioB_lvl12, scenarioB_lvl13, scenarioB_lvl14, scenarioB_lvl15, scenarioB_lvl16, scenarioB_lvl17]

set_option maxRecDepth 4000 in
theorem scenarioB_frag_empty : Difflib.matchingTotal 35 [] [] = 0 := by
  decide

set_option maxRecDepth 4000 in
theorem scenarioB_frag_tail :
    Difflib.matchingTotal 35 ['-', 'w', 'e', 'b', 's', 'e', 'r', 'v', 'e', 'r']
      ['_', 'w', 'e', 'b', '_', 's', 'e', 'r', 'v', 'e', 'r'] = 9 := by
  decide

set_option maxRecDepth 4000 in
theorem scenarioB_totalMatches :
    Difflib.totalMatches ['r', 'e', 's', 't', 'a', 'r', 't', '-', 'w', 'e', 'b', 's', 'e', 'r', 'v', 'e', 'r']
      ['r', 'e', 's', 't', 'a', 'r', 't', '_', 'w', 'e', 'b', '_', 's', 'e', 'r', 'v', 'e', 'r'] = 16 := by
  simp only [Difflib.totalMatches, List.length_cons, List.length_nil, Nat.reduceAdd]
  rw [show (36 : Nat) = 35 + 1 from rfl]
  rw [Difflib.matchingTotal.eq_2]
  rw [scenarioB_flm]
  norm_num
  rw [scenarioB_frag_empty, scenarioB_frag_tail]

/-- The similarity of the Scenario-B pair: the substring override does
not fire, and the sequence ratio is `2·16/(17+18) = 32/35`. -/
theorem scenarioB_similarity_val :
    similarity "restart-webserver" "restart_web_server" = 32/35 := by
  have hsub : isSubstringOf (pyLower "restart-webserver").data
      (pyLower "restart_web_server").data = false := by decide
  have hlow1 : pyLower "restart-webserver" = "restart-webserver" := by decide
  have hlow2 : pyLower "restart_web_server" = "restart_web_server" := by decide
  unfold similarity
  simp only [hsub, Bool.false_eq_true, if_false, hlow1, hlow2]
  unfold Difflib.ratio
  have hdA : "restart-webserver".data =
      ['r', 'e', 's', 't', 'a', 'r', 't', '-', 'w', 'e', 'b', 's', 'e', 'r',
       'v', 'e', 'r'] := by decide
  have hdB : "restart_web_server".data =
      ['r', 'e', 's', 't', 'a', 'r', 't', '_', 'w', 'e', 'b', '_', 's', 'e',
       'r', 'v', 'e', 'r'] := by decide
  rw [hdA, hdB]
  rw [if_neg (by decide)]
  rw [scenarioB_totalMatches]
  norm_num [List.length_cons]

/-- C8 counterexample: for the plan-step tool name
`"restart-webserver"` and the script name `"restart_web_server"`, the
match score is not `1.0` — the lower-cased tool name is not a literal
substring of the script name (the hyphen does not match the
underscore), so the exact-match override does not fire and the
sequence ratio `32/35` decides the match. -/
theorem scenarioB_score_not_one :
    similarity "restart-webserver" "restart_web_server" ≠ 1 := by
  rw [scenarioB_similarity_val]
  norm_num

/-- C8 amended: for the plan-step tool name `"restart-webserver"` and
a registry containing the script `"restart_web_server"`,
`resolve_scripts` scores the pair `32/35 ≈ 0.914` via the fuzzy
sequence similarity (not `1.0`: the substring override does not apply
to the hyphen/underscore mismatch), which clears the `0.5` acceptance
threshold, and binds the step to that script. -/
theorem scenarioB_fuzzy_match_binds :
    similarity "restart-webserver" "restart_web_server" = 32/35 ∧
    resolve_scripts
        [PlanStep.mk (some "Restart the web server") (some "restart-webserver")]
        [Script.mk "1" "restart_web_server" []] =
      [ResolvedStep.mk (ResolvedId.found "1") (some "Restart the web server")
        (some "restart_web_server") []] := by
  refine ⟨scenarioB_similarity_val, ?_⟩
  have hbm : bestMatch "restart-webserver" [Script.mk "1" "restart_web_server" []] =
      (some (Script.mk "1" "restart_web_server" []), 32/35) := by
    unfold bestMatch
    rw [List.foldl_cons, List.foldl_nil]
    rw [show (Script.mk "1" "restart_web_server" []).name = "restart_web_server"
      from rfl]
    rw [scenarioB_similarity_val]
    norm_num
  unfold resolve_scripts
  rw [List.map_cons, List.map_nil]
  unfold resolveStep
  rw [if_neg (by decide)]
  simp only [Option.getD_some]
  rw [hbm]
  dsimp only
  rw [if_pos (by norm_num : (1:ℚ)/2 ≤ 32/35)]

/-! ## The resolution loop (`ResolverAgent.run`, resolver_agent.py
lines 44–151)

External collaborators are modelled as oracle fields of an `AgentEnv`:
the SOP search result, the generated plan, the script registry, the
LLM parameter extractor (a function of the accumulated context and the
parameter schema) and the execution agent (a function of the step
index, dispatch tool, script name and parameters — the index lets the
model range over any behaviour of the underlying subprocesses).  The
two side effects the claims talk about are recorded in explicit event
logs: every `update_incident_history(incident_number, plan,
frontend_trace)` call appends its frontend trace snapshot to
`persistLog` (the incident number and plan arguments are the same on
every call of a run), and every dispatch to `ExecutionAgent.run`
appends `(step index, tool, script name)` to `execLog`. -/

/-- Status of an `ExecutionAgent.run` result.  Every path of
`ExecutionAgent.run` / `execute_shell_script_tool` produces
`"success"` or `"error"`. -/
inductive ExecStatus where
  | success
  | error
  deriving Repr, DecidableEq

/-- `{status, output}` as returned by the execution agent. -/
structure ExecResult where
  status : ExecStatus
  output : String
  deriving Repr, DecidableEq

/-- Status recorded in a trace entry: `"success"`, `"error"` or
`"skipped"`. -/
inductive TraceStatus where
  | success
  | error
  | skipped
  deriving Repr, DecidableEq

/-- The trace entry records `execution_result["status"]` verbatim. -/
def statusOfExec : ExecStatus → TraceStatus
  | .success => .success
  | .error => .error

/-- The parameter map returned by the extractor: a dict of parameter
name to extracted value (`none` models JSON null / absence). -/
abbrev ParamMap : Type := List (String × Option String)

/-- `parameters.get(name)`. -/
def getParam (m : ParamMap) (k : String) : Option String :=
  match List.lookup k m with
  | some v => v
  | none => none

/-- Python falsiness of an optional string (`not x`): absent or empty. -/
def falsyStr (v : Option String) : Bool :=
  match v with
  | none => true
  | some s => s.isEmpty

/-- A registry script row as read by the agent: `{id, name,
script_type, params}`. -/
structure ScriptDetails where
  id : Option String
  name : String
  script_type : Option String
  params : List ParamSpec
  deriving Repr, DecidableEq

/-- One entry of the internal execution trace.  `parameters` and
`output` are `Option` because the skipped entry carries neither and
the lookup-failure entries carry no parameters. -/
structure TraceEntry where
  step : Nat
  description : Option String
  action : String
  status : TraceStatus
  parameters : Option ParamMap
  output : Option String
  deriving Repr, DecidableEq

/-- One row of the legacy frontend trace built by
`_transform_trace_for_frontend`. -/
structure FrontendItem where
  step_description : Option String
  script_name : Option String
  script_id : Option String
  parameters : List ParamSpec
  extracted_parameters : ParamMap
  status : TraceStatus
  output : Option String
  deriving Repr, DecidableEq

/-- `str.replace(pat, rep)` on character lists (left-to-right,
non-overlapping), for a non-empty pattern `p :: ps`. -/
def listReplace (p : Char) (ps rep : List Char) : List Char → List Char
  | [] => []
  | c :: cs =>
      if (p :: ps).isPrefixOf (c :: cs) then
        rep ++ listReplace p ps rep (cs.drop ps.length)
      else c :: listReplace p ps rep cs
  termination_by l => l.length
  decreasing_by
    · simp only [List.length_drop, List.length_cons]
      omega
    · simp only [List.length_cons]
      omega

/-- `action.replace(pat, rep)` (the transform only calls it with the
fixed non-empty pattern `"Execute script: "`). -/
def pyReplace (s pat rep : String) : String :=
  match pat.data with
  | [] => s
  | p :: ps => ⟨listReplace p ps rep.data s.data⟩

/-- The transform recovers the script name from the `action` field:
`if "Execute script: " in action: action.replace("Execute script: ",
"")`, else `None`. -/
def frontendScriptName (action : String) : Option String :=
  if isSubstringOf "Execute script: ".data action.data then
    some (pyReplace action "Execute script: " "")
  else none

/-- `next((s for s in available_scripts if s["name"] == name), None)`. -/
def findScript (scripts : List ScriptDetails) (name : String) :
    Option ScriptDetails :=
  scripts.find? (fun s => s.name == name)

/-- One row of `_transform_trace_for_frontend` (resolver_agent.py
lines 18–42): recover the script name from the action, look the script
up (an entry without a recovered name matches nothing, like the Python
comparison with `None`), and copy the step data. -/
def toFrontendItem (scripts : List ScriptDetails) (item : TraceEntry) :
    FrontendItem :=
  { step_description := item.description
    script_name := frontendScriptName item.action
    script_id :=
      match frontendScriptName item.action with
      | none => none
      | some n =>
          match findScript scripts n with
          | none => none
          | some s => s.id
    parameters :=
      match frontendScriptName item.action with
      | none => []
      | some n =>
          match findScript scripts n with
          | none => []
          | some s => s.params
    extracted_parameters := item.parameters.getD []
    status := item.status
    output := item.output }

/-- `_transform_trace_for_frontend`. -/
def transformTraceForFrontend (scripts : List ScriptDetails)
    (trace : List TraceEntry) : List FrontendItem :=
  trace.map (toFrontendItem scripts)

/-- Environment of one `ResolverAgent.run` call: the collaborator
answers (SOP search, plan generation, script registry, incident
fields) and the oracles for parameter extraction and execution. -/
structure AgentEnv where
  sops : List ScoredPoint
  planSteps : List PlanStep
  scripts : List ScriptDetails
  incident : List (String × String)
  extract : List (String × String) → List ParamSpec → ParamMap
  exec : Nat → String → String → ParamMap → ExecResult

/-- Mutable state threaded through the step loop: the trace, the two
event logs and the accumulated context. -/
structure RunState where
  trace : List TraceEntry
  persistLog : List (List FrontendItem)
  execLog : List (Nat × String × String)
  ctx : List (String × String)

/-- Final status of a run: `"Resolved"`, `"Error"` or
`"SOP not found"`. -/
inductive RunStatus where
  | resolved
  | error
  | sopNotFound
  deriving Repr, DecidableEq

/-- Result of a run, with the recorded event logs. -/
structure RunResult where
  status : RunStatus
  trace : List TraceEntry
  persistLog : List (List FrontendItem)
  execLog : List (Nat × String × String)

/-- `update_incident_history(incident_number, plan, frontend_trace)`:
record the current frontend trace snapshot. -/
def persistState (env : AgentEnv) (st : RunState) : RunState :=
  { st with persistLog :=
      st.persistLog ++ [transformTraceForFrontend env.scripts st.trace] }

/-- Append a trace entry and immediately persist (every trace append
in the loop is followed by `update_incident_history`). -/
def pushTrace (env : AgentEnv) (st : RunState) (e : TraceEntry) : RunState :=
  persistState env { st with trace := st.trace ++ [e] }

def mkResult (status : RunStatus) (st : RunState) : RunResult :=
  { status := status, trace := st.trace, persistLog := st.persistLog,
    execLog := st.execLog }

/-- `[p["param_name"] for p in params if p["required"] and not
parameters.get(p["param_name"]) and not p.get("default_value")]`. -/
def missingParams (params : List ParamSpec) (parameters : ParamMap) :
    List String :=
  (params.filter (fun p => p.required && falsyStr (getParam parameters p.param_name)
      && falsyStr p.default_value)).map (fun p => p.param_name)

/-- `", ".join(l)`. -/
def joinComma : List String → String
  | [] => ""
  | [s] => s
  | s :: rest => s ++ ", " ++ joinComma rest

/-- The trace entry of a skipped (manual) step. -/
def skipEntry (i : Nat) (step : PlanStep) : TraceEntry :=
  ⟨i + 1, step.description, "Manual step, no script.", .skipped, none, none⟩

/-- The trace entry recorded when the planned script is not in the
registry (quote characters of the Python message elided). -/
def notFoundEntry (i : Nat) (step : PlanStep) (script_name : String) :
    TraceEntry :=
  ⟨i + 1, step.description, "Execute script: " ++ script_name, .error, none,
    some ("Script " ++ script_name ++
      " planned but not found in available scripts.")⟩

/-- The trace entry recorded when the script lacks a `script_type`. -/
def noTypeEntry (i : Nat) (step : PlanStep) (script_name : String) :
    TraceEntry :=
  ⟨i + 1, step.description, "Execute script: " ++ script_name, .error, none,
    some ("Script " ++ script_name ++
      " is missing a script_type and cannot be executed.")⟩

/-- The trace entry recorded when required parameters are missing. -/
def missingEntry (i : Nat) (step : PlanStep) (script_name : String)
    (parameters : ParamMap) (missing : List String) : TraceEntry :=
  ⟨i + 1, step.description, "Execute script: " ++ script_name, .error,
    some parameters,
    some ("Failed to extract required parameters: " ++ joinComma missing ++ ".")⟩

/-- The trace entry recorded after dispatching the execution agent. -/
def execEntry (i : Nat) (step : PlanStep) (script_name : String)
    (parameters : ParamMap) (result : ExecResult) : TraceEntry :=
  ⟨i + 1, step.description, "Execute script: " ++ script_name,
    statusOfExec result.status, some parameters, some result.output⟩

/-- `parameters`: `{}` when the script declares no parameters (the
extractor is then not called), the extractor's answer otherwise. -/
def extractedParams (env : AgentEnv) (st : RunState) (sd : ScriptDetails) :
    ParamMap :=
  if sd.params.isEmpty then [] else env.extract st.ctx sd.params

/-- Record the dispatch of `ExecutionAgent.run` in the execution log. -/
def logExec (st : RunState) (i : Nat) (tool script_name : String) : RunState :=
  { st with execLog := st.execLog ++ [(i, tool, script_name)] }

/-- The per-step loop of `ResolverAgent.run` (lines 74–143), with `i`
the 0-based index of the current step.  Each early `return` of the
Python loop becomes a `mkResult .error`; falling off the end of the
plan is the `"Resolved"` return.  When the declared parameter list is
empty the extractor is not called and `parameters` stays `{}`; the
missing-parameter check is then vacuous, which matches guarding it
under `if script_details.get("params")`. -/
def stepLoop (env : AgentEnv) : List PlanStep → Nat → RunState → RunResult
  | [], _, st => mkResult .resolved st
  | step :: rest, i, st =>
      if falsyStr step.tool then
        stepLoop env rest (i + 1) (pushTrace env st (skipEntry i step))
      else
        match findScript env.scripts (step.tool.getD "") with
        | none =>
            mkResult .error
              (pushTrace env st (notFoundEntry i step (step.tool.getD "")))
        | some sd =>
            if falsyStr sd.script_type then
              mkResult .error
                (pushTrace env st (noTypeEntry i step (step.tool.getD "")))
            else
              if (missingParams sd.params (extractedParams env st sd)).isEmpty then
                match env.exec i (sd.script_type.getD "") (step.tool.getD "")
                    (extractedParams env st sd) with
                | ⟨.error, output⟩ =>
                    mkResult .error
                      (pushTrace env
                        (logExec st i (sd.script_type.getD "") (step.tool.getD ""))
                        (execEntry i step (step.tool.getD "")
                          (extractedParams env st sd) ⟨.error, output⟩))
                | ⟨.success, output⟩ =>
                    stepLoop env rest (i + 1)
                      { pushTrace env
                          (logExec st i (sd.script_type.getD "") (step.tool.getD ""))
                          (execEntry i step (step.tool.getD "")
                            (extractedParams env st sd) ⟨.success, output⟩) with
                        ctx := (step.tool.getD "" ++ "_output", output) :: st.ctx }
              else
                mkResult .error
                  (pushTrace env st
                    (missingEntry i step (step.tool.getD "")
                      (extractedParams env st sd)
                      (missingParams sd.params (extractedParams env st sd))))

/-- `ResolverAgent.run` (lines 44–151): empty SOP answer ⇒
`"SOP not found"` with nothing persisted; a plan without steps ⇒
`"Error"` with nothing persisted; otherwise the plan is persisted once
before any step (the initial checkpoint, with an empty trace) and the
loop runs from step 0 with the accumulated context initialised to the
incident fields. -/
def ResolverAgent.run (env : AgentEnv) : RunResult :=
  if env.sops.isEmpty then
    { status := .sopNotFound, trace := [], persistLog := [], execLog := [] }
  else if env.planSteps.isEmpty then
    { status := .error, trace := [], persistLog := [], execLog := [] }
  else
    stepLoop env env.planSteps 0
      (persistState env
        { trace := [], persistLog := [], execLog := [], ctx := env.incident })

/-! ### Case equations of the step loop -/

theorem stepLoop_nil (env : AgentEnv) (i : Nat) (st : RunState) :
    stepLoop env [] i st = mkResult .resolved st := rfl

theorem stepLoop_cons_skip (env : AgentEnv) (step : PlanStep)
    (rest : List PlanStep) (i : Nat) (st : RunState)
    (h : falsyStr step.tool = true) :
    stepLoop env (step :: rest) i st =
      stepLoop env rest (i + 1) (pushTrace env st (skipEntry i step)) := by
  rw [stepLoop.eq_2]
  rw [if_pos h]

theorem stepLoop_cons_notFound (env : AgentEnv) (step : PlanStep)
    (rest : List PlanStep) (i : Nat) (st : RunState)
    (h1 : falsyStr step.tool = false)
    (h2 : findScript env.scripts (step.tool.getD "") = none) :
    stepLoop env (step :: rest) i st =
      mkResult .error
        (pushTrace env st (notFoundEntry i step (step.tool.getD ""))) := by
  rw [stepLoop.eq_2]
  rw [if_neg (by simp [h1]), h2]

theorem stepLoop_cons_noType (env : AgentEnv) (step : PlanStep)
    (rest : List PlanStep) (i : Nat) (st : RunState) (sd : ScriptDetails)
    (h1 : falsyStr step.tool = false)
    (h2 : findScript env.scripts (step.tool.getD "") = some sd)
    (h3 : falsyStr sd.script_type = true) :
    stepLoop env (step :: rest) i st =
      mkResult .error
        (pushTrace env st (noTypeEntry i step (step.tool.getD ""))) := by
  rw [stepLoop.eq_2]
  rw [if_neg (by simp [h1]), h2]
  dsimp only
  rw [if_pos h3]

theorem stepLoop_cons_missing (env : AgentEnv) (step : PlanStep)
    (rest : List PlanStep) (i : Nat) (st : RunState) (sd : ScriptDetails)
    (h1 : falsyStr step.tool = false)
    (h2 : findScript env.scripts (step.tool.getD "") = some sd)
    (h3 : falsyStr sd.script_type = false)
    (h4 : (missingParams sd.params (extractedParams env st sd)).isEmpty = false) :
    stepLoop env (step :: rest) i st =
      mkResult .error
        (pushTrace env st
          (missingEntry i step (step.tool.getD "") (extractedParams env st sd)
            (missingParams sd.params (extractedParams env st sd)))) := by
  rw [stepLoop.eq_2]
  rw [if_neg (by simp [h1]), h2]
  dsimp only
  rw [if_neg (by simp [h3]), if_neg (by simp [h4])]

theorem stepLoop_cons_exec_error (env : AgentEnv) (step : PlanStep)
    (rest : List PlanStep) (i : Nat) (st : RunState) (sd : ScriptDetails)
    (output : String)
    (h1 : falsyStr step.tool = false)
    (h2 : findScript env.scripts (step.tool.getD "") = some sd)
    (h3 : falsyStr sd.script_type = false)
    (h4 : (missingParams sd.params (extractedParams env st sd)).isEmpty = true)
    (h5 : env.exec i (sd.script_type.getD "") (step.tool.getD "")
        (extractedParams env st sd) = ⟨.error, output⟩) :
    stepLoop env (step :: rest) i st =
      mkResult .error
        (pushTrace env (logExec st i (sd.script_type.getD "") (step.tool.getD ""))
          (execEntry i step (step.tool.getD "") (extractedParams env st sd)
            ⟨.error, output⟩)) := by
  rw [stepLoop.eq_2]
  rw [if_neg (by simp [h1]), h2]
  dsimp only
  rw [if_neg (by simp [h3]), if_pos h4, h5]

theorem stepLoop_cons_exec_success (env : AgentEnv) (step : PlanStep)
    (rest : List PlanStep) (i : Nat) (st : RunState) (sd : ScriptDetails)
    (output : String)
    (h1 : falsyStr step.tool = false)
    (h2 : findScript env.scripts (step.tool.getD "") = some sd)
    (h3 : falsyStr sd.script_type = false)
    (h4 : (missingParams sd.params (extractedParams env st sd)).isEmpty = true)
    (h5 : env.exec i (sd.script_type.getD "") (step.tool.getD "")
        (extractedParams env st sd) = ⟨.success, output⟩) :
    stepLoop env (step :: rest) i st =
      stepLoop env rest (i + 1)
        { pushTrace env
            (logExec st i (sd.script_type.getD "") (step.tool.getD ""))
            (execEntry i step (step.tool.getD "") (extractedParams env st sd)
              ⟨.success, output⟩) with
          ctx := (step.tool.getD "" ++ "_output", output) :: st.ctx } := by
  rw [stepLoop.eq_2]
  rw [if_neg (by simp [h1]), h2]
  dsimp only
  rw [if_neg (by simp [h3]), if_pos h4, h5]

/-! ### Incremental persistence (C7) -/

/-- The checkpointing invariant: the persistence log is exactly the
frontend transform of every prefix of the trace, in order — one
snapshot from the initial plan checkpoint (empty trace) plus one per
processed step. -/
def persistInv (scripts : List ScriptDetails) (trace : List TraceEntry)
    (log : List (List FrontendItem)) : Prop :=
  log = (List.range (trace.length + 1)).map
    (fun k => transformTraceForFrontend scripts (trace.take k))

theorem take_append_left {α : Type} (l l2 : List α) (k : Nat)
    (hk : k ≤ l.length) : (l ++ l2).take k = l.take k := by
  induction l generalizing k with
  | nil =>
      simp at hk
      simp [hk]
  | cons a as ih =>
      match k with
      | 0 => rfl
      | k + 1 =>
          simp only [List.cons_append, List.take_succ_cons]
          rw [ih k (by simpa using hk)]

theorem persistInv_push (env : AgentEnv) (st : RunState) (e : TraceEntry)
    (h : persistInv env.scripts st.trace st.persistLog) :
    persistInv env.scripts (pushTrace env st e).trace
      (pushTrace env st e).persistLog := by
  show st.persistLog ++ [transformTraceForFrontend env.scripts (st.trace ++ [e])] =
    (List.range ((st.trace ++ [e]).length + 1)).map
      (fun k => transformTraceForFrontend env.scripts ((st.trace ++ [e]).take k))
  rw [h]
  have hlen : (st.trace ++ [e]).length = st.trace.length + 1 := by simp
  conv_rhs => rw [hlen, List.range_succ, List.map_append]
  congr 1
  · apply List.map_congr_left
    intro k hk
    rw [List.mem_range] at hk
    rw [take_append_left _ _ _ (by omega)]
  · simp only [List.map_cons, List.map_nil]
    rw [show st.trace.length + 1 = (st.trace ++ [e]).length from hlen.symm]
    rw [List.take_length]

theorem stepLoop_persistInv (env : AgentEnv) : ∀ (steps : List PlanStep)
    (i : Nat) (st : RunState),
    persistInv env.scripts st.trace st.persistLog →
    persistInv env.scripts (stepLoop env steps i st).trace
      (stepLoop env steps i st).persistLog := by
  intro steps
  induction steps with
  | nil =>
      intro i st h
      rw [stepLoop_nil]
      exact h
  | cons step rest ih =>
      intro i st h
      by_cases h1 : falsyStr step.tool = true
      · rw [stepLoop_cons_skip env step rest i st h1]
        exact ih _ _ (persistInv_push env st _ h)
      · have h1f : falsyStr step.tool = false := by simpa using h1
        match h2 : findScript env.scripts (step.tool.getD "") with
        | none =>
            rw [stepLoop_cons_notFound env step rest i st h1f h2]
            exact persistInv_push env st _ h
        | some sd =>
            by_cases h3 : falsyStr sd.script_type = true
            · rw [stepLoop_cons_noType env step rest i st sd h1f h2 h3]
              exact persistInv_push env st _ h
            · have h3f : falsyStr sd.script_type = false := by simpa using h3
              by_cases h4 : (missingParams sd.params
                  (extractedParams env st sd)).isEmpty = true
              · match h5 : env.exec i (sd.script_type.getD "") (step.tool.getD "")
                    (extractedParams env st sd) with
                | ⟨.error, output⟩ =>
                    rw [stepLoop_cons_exec_error env step rest i st sd output
                      h1f h2 h3f h4 h5]
                    exact persistInv_push env _ _ h
                | ⟨.success, output⟩ =>
                    rw [stepLoop_cons_exec_success env step rest i st sd output
                      h1f h2 h3f h4 h5]
                    exact ih _ _ (persistInv_push env _ _ h)
              · have h4f : (missingParams sd.params
                    (extractedParams env st sd)).isEmpty = false := by simpa using h4
                rw [stepLoop_cons_missing env step rest i st sd h1f h2 h3f h4f]
                exact persistInv_push env st _ h

/-- C7: in every run that reaches the execution phase (SOPs found and
a non-empty plan), the plan is persisted before any step executes, and
after every processed step the trace is persisted again: the
persistence log is exactly the frontend transform of each prefix of
the final trace, in order — `trace.length + 1` incremental snapshots,
not a single end-of-run write. -/
theorem run_persists_incrementally (env : AgentEnv)
    (h1 : env.sops.isEmpty = false) (h2 : env.planSteps.isEmpty = false) :
    (ResolverAgent.run env).persistLog =
      (List.range ((ResolverAgent.run env).trace.length + 1)).map
        (fun k => transformTraceForFrontend env.scripts
          ((ResolverAgent.run env).trace.take k)) ∧
    (ResolverAgent.run env).persistLog.length =
      (ResolverAgent.run env).trace.length + 1 := by
  have key : persistInv env.scripts (ResolverAgent.run env).trace
      (ResolverAgent.run env).persistLog := by
    unfold ResolverAgent.run
    rw [if_neg (by simp [h1]), if_neg (by simp [h2])]
    apply stepLoop_persistInv
    show [transformTraceForFrontend env.scripts []] =
      (List.range (([] : List TraceEntry).length + 1)).map
        (fun k => transformTraceForFrontend env.scripts
          (([] : List TraceEntry).take k))
    rfl
  refine ⟨key, ?_⟩
  rw [key]
  simp

/-- Witness for C7: a one-step plan with a manual (tool-less) step. -/
theorem run_persists_incrementally_witness :
    (ResolverAgent.run
        ⟨[ScoredPoint.mk "a" "t" "i" [] [] 1],
          [PlanStep.mk (some "manual fix") none], [], [],
          fun _ _ => [], fun _ _ _ _ => ⟨.success, "ok"⟩⟩).persistLog =
      (List.range ((ResolverAgent.run
          ⟨[ScoredPoint.mk "a" "t" "i" [] [] 1],
            [PlanStep.mk (some "manual fix") none], [], [],
            fun _ _ => [], fun _ _ _ _ => ⟨.success, "ok"⟩⟩).trace.length + 1)).map
        (fun k => transformTraceForFrontend []
          ((ResolverAgent.run
            ⟨[ScoredPoint.mk "a" "t" "i" [] [] 1],
              [PlanStep.mk (some "manual fix") none], [], [],
              fun _ _ => [], fun _ _ _ _ => ⟨.success, "ok"⟩⟩).trace.take k)) ∧
    (ResolverAgent.run
        ⟨[ScoredPoint.mk "a" "t" "i" [] [] 1],
          [PlanStep.mk (some "manual fix") none], [], [],
          fun _ _ => [], fun _ _ _ _ => ⟨.success, "ok"⟩⟩).persistLog.length =
      (ResolverAgent.run
        ⟨[ScoredPoint.mk "a" "t" "i" [] [] 1],
          [PlanStep.mk (some "manual fix") none], [], [],
          fun _ _ => [], fun _ _ _ _ => ⟨.success, "ok"⟩⟩).trace.length + 1 :=
  run_persists_incrementally
    ⟨[ScoredPoint.mk "a" "t" "i" [] [] 1],
      [PlanStep.mk (some "manual fix") none], [], [],
      fun _ _ => [], fun _ _ _ _ => ⟨.success, "ok"⟩⟩ rfl rfl

/-! ### Halt on error (C3) -/

/-- No entry of the trace is an error. -/
def errorFreeTrace (trace : List TraceEntry) : Prop :=
  ∀ e ∈ trace, e.status ≠ .error

theorem errorFreeTrace_push {trace : List TraceEntry} {e : TraceEntry}
    (h : errorFreeTrace trace) (he : e.status ≠ .error) :
    errorFreeTrace (trace ++ [e]) := by
  intro x hx
  rcases List.mem_append.mp hx with hx | hx
  · exact h x hx
  · rw [List.mem_singleton] at hx
    subst hx
    exact he

theorem stepLoop_dropLast_errorFree (env : AgentEnv) :
    ∀ (steps : List PlanStep) (i : Nat) (st : RunState),
    errorFreeTrace st.trace →
    errorFreeTrace (stepLoop env steps i st).trace.dropLast := by
  intro steps
  induction steps with
  | nil =>
      intro i st h e he
      rw [stepLoop_nil] at he
      exact h e ((List.dropLast_sublist _).subset he)
  | cons step rest ih =>
      intro i st h
      by_cases h1 : falsyStr step.tool = true
      · rw [stepLoop_cons_skip env step rest i st h1]
        exact ih _ _ (errorFreeTrace_push h (by simp [skipEntry]))
      · have h1f : falsyStr step.tool = false := by simpa using h1
        match h2 : findScript env.scripts (step.tool.getD "") with
        | none =>
            rw [stepLoop_cons_notFound env step rest i st h1f h2]
            intro e he
            show e.status ≠ .error
            rw [show (mkResult RunStatus.error
                (pushTrace env st (notFoundEntry i step (step.tool.getD "")))).trace =
              st.trace ++ [notFoundEntry i step (step.tool.getD "")] from rfl] at he
            rw [List.dropLast_concat] at he
            exact h e he
        | some sd =>
            by_cases h3 : falsyStr sd.script_type = true
            · rw [stepLoop_cons_noType env step rest i st sd h1f h2 h3]
              intro e he
              rw [show (mkResult RunStatus.error
                  (pushTrace env st (noTypeEntry i step (step.tool.getD "")))).trace =
                st.trace ++ [noTypeEntry i step (step.tool.getD "")] from rfl] at he
              rw [List.dropLast_concat] at he
              exact h e he
            · have h3f : falsyStr sd.script_type = false := by simpa using h3
              by_cases h4 : (missingParams sd.params
                  (extractedParams env st sd)).isEmpty = true
              · match h5 : env.exec i (sd.script_type.getD "") (step.tool.getD "")
                    (extractedParams env st sd) with
                | ⟨.error, output⟩ =>
                    rw [stepLoop_cons_exec_error env step rest i st sd output
                      h1f h2 h3f h4 h5]
                    intro e he
                    rw [show (mkResult RunStatus.error (pushTrace env
                        (logExec st i (sd.script_type.getD "") (step.tool.getD ""))
                        (execEntry i step (step.tool.getD "")
                          (extractedParams env st sd) ⟨.error, output⟩))).trace =
                      st.trace ++ [execEntry i step (step.tool.getD "")
                        (extractedParams env st sd) ⟨.error, output⟩] from rfl] at he
                    rw [List.dropLast_concat] at he
                    exact h e he
                | ⟨.success, output⟩ =>
                    rw [stepLoop_cons_exec_success env step rest i st sd output
                      h1f h2 h3f h4 h5]
                    exact ih _ _ (errorFreeTrace_push h (by simp [execEntry, statusOfExec]))
              · have h4f : (missingParams sd.params
                    (extractedParams env st sd)).isEmpty = false := by simpa using h4
                rw [stepLoop_cons_missing env step rest i st sd h1f h2 h3f h4f]
                intro e he
                rw [show (mkResult RunStatus.error (pushTrace env st
                    (missingEntry i step (step.tool.getD "")
                      (extractedParams env st sd)
                      (missingParams sd.params (extractedParams env st sd))))).trace =
                  st.trace ++ [missingEntry i step (step.tool.getD "")
                    (extractedParams env st sd)
                    (missingParams sd.params (extractedParams env st sd))] from rfl] at he
                rw [List.dropLast_concat] at he
                exact h e he

theorem stepLoop_noError_trace (env : AgentEnv) :
    ∀ (steps : List PlanStep) (i : Nat) (st : RunState),
    errorFreeTrace st.trace →
    (stepLoop env steps i st).status ≠ .error →
    errorFreeTrace (stepLoop env steps i st).trace := by
  intro steps
  induction steps with
  | nil =>
      intro i st h _
      rw [stepLoop_nil]
      exact h
  | cons step rest ih =>
      intro i st h hst
      by_cases h1 : falsyStr step.tool = true
      · rw [stepLoop_cons_skip env step rest i st h1] at hst ⊢
        exact ih _ _ (errorFreeTrace_push h (by simp [skipEntry])) hst
      · have h1f : falsyStr step.tool = false := by simpa using h1
        match h2 : findScript env.scripts (step.tool.getD "") with
        | none =>
            rw [stepLoop_cons_notFound env step rest i st h1f h2] at hst
            exact absurd rfl hst
        | some sd =>
            by_cases h3 : falsyStr sd.script_type = true
            · rw [stepLoop_cons_noType env step rest i st sd h1f h2 h3] at hst
              exact absurd rfl hst
            · have h3f : falsyStr sd.script_type = false := by simpa using h3
              by_cases h4 : (missingParams sd.params
                  (extractedParams env st sd)).isEmpty = true
              · match h5 : env.exec i (sd.script_type.getD "") (step.tool.getD "")
                    (extractedParams env st sd) with
                | ⟨.error, output⟩ =>
                    rw [stepLoop_cons_exec_error env step rest i st sd output
                      h1f h2 h3f h4 h5] at hst
                    exact absurd rfl hst
                | ⟨.success, output⟩ =>
                    rw [stepLoop_cons_exec_success env step rest i st sd output
                      h1f h2 h3f h4 h5] at hst ⊢
                    exact ih _ _
                      (errorFreeTrace_push h (by simp [execEntry, statusOfExec])) hst
              · have h4f : (missingParams sd.params
                    (extractedParams env st sd)).isEmpty = false := by simpa using h4
                rw [stepLoop_cons_missing env step rest i st sd h1f h2 h3f h4f] at hst
                exact absurd rfl hst

/-- The default entry used to read the trace without a dependent
bounds proof. -/
def dfltEntry : TraceEntry :=
  ⟨0, none, "", .success, none, none⟩

/-- In a halting case the appended entry is an error entry, therefore
not skipped; a skipped entry can thus only sit strictly before the
last position. -/
theorem halt_entry_skip_continues (i k : Nat) (t : List TraceEntry)
    (E : TraceEntry) (hlen : t.length = i) (hE : E.status = .error)
    (hk : k < (t ++ [E]).length)
    (hsk : ((t ++ [E]).getD k dfltEntry).status = .skipped) :
    k + 1 < (t ++ [E]).length := by
  have hlen2 : (t ++ [E]).length = i + 1 := by simp [hlen]
  by_cases hki : k < i
  · omega
  · have hke : k = t.length := by rw [hlen2] at hk; omega
    subst hke
    exfalso
    rw [List.getD_eq_getElem _ _ hk] at hsk
    have hEe : (t ++ [E])[t.length] = E := by simp
    rw [hEe, hE] at hsk
    exact absurd hsk (by simp)

theorem stepLoop_skip_continues (env : AgentEnv) :
    ∀ (steps : List PlanStep) (i : Nat) (st : RunState),
    st.trace.length = i →
    ∀ k, k < (stepLoop env steps i st).trace.length →
      ((stepLoop env steps i st).trace.getD k dfltEntry).status = .skipped →
      k + 1 < i + steps.length →
      k + 1 < (stepLoop env steps i st).trace.length := by
  intro steps
  induction steps with
  | nil =>
      intro i st hlen k hk hsk hb
      rw [stepLoop_nil] at hk ⊢
      show k + 1 < st.trace.length
      rw [hlen]
      simp only [List.length_nil] at hb
      omega
  | cons step rest ih =>
      intro i st hlen k hk hsk hb
      by_cases h1 : falsyStr step.tool = true
      · rw [stepLoop_cons_skip env step rest i st h1] at hk hsk ⊢
        refine ih (i + 1) _ ?_ k hk hsk ?_
        · show (st.trace ++ [skipEntry i step]).length = i + 1
          simp [hlen]
        · simp only [List.length_cons] at hb
          omega
      · have h1f : falsyStr step.tool = false := by simpa using h1
        match h2 : findScript env.scripts (step.tool.getD "") with
        | none =>
            rw [stepLoop_cons_notFound env step rest i st h1f h2] at hk hsk ⊢
            exact halt_entry_skip_continues i k st.trace _ hlen rfl hk hsk
        | some sd =>
            by_cases h3 : falsyStr sd.script_type = true
            · rw [stepLoop_cons_noType env step rest i st sd h1f h2 h3] at hk hsk ⊢
              exact halt_entry_skip_continues i k st.trace _ hlen rfl hk hsk
            · have h3f : falsyStr sd.script_type = false := by simpa using h3
              by_cases h4 : (missingParams sd.params
                  (extractedParams env st sd)).isEmpty = true
              · match h5 : env.exec i (sd.script_type.getD "") (step.tool.getD "")
                    (extractedParams env st sd) with
                | ⟨.error, output⟩ =>
                    rw [stepLoop_cons_exec_error env step rest i st sd output
                      h1f h2 h3f h4 h5] at hk hsk ⊢
                    exact halt_entry_skip_continues i k st.trace _ hlen rfl hk hsk
                | ⟨.success, output⟩ =>
                    rw [stepLoop_cons_exec_success env step rest i st sd output
                      h1f h2 h3f h4 h5] at hk hsk ⊢
                    refine ih (i + 1) _ ?_ k hk hsk ?_
                    · show (st.trace ++ [execEntry i step (step.tool.getD "")
                        (extractedParams env st sd) ⟨.success, output⟩]).length = i + 1
                      simp [hlen]
                    · simp only [List.length_cons] at hb
                      omega
              · have h4f : (missingParams sd.params
                    (extractedParams env st sd)).isEmpty = false := by simpa using h4
                rw [stepLoop_cons_missing env step rest i st sd h1f h2 h3f h4f]
                  at hk hsk ⊢
                exact halt_entry_skip_continues i k st.trace _ hlen rfl hk hsk

theorem stepLoop_execLog_lt (env : AgentEnv) :
    ∀ (steps : List PlanStep) (i : Nat) (st : RunState),
    st.trace.length = i →
    (∀ x ∈ st.execLog, x.1 < st.trace.length) →
    ∀ x ∈ (stepLoop env steps i st).execLog,
      x.1 < (stepLoop env steps i st).trace.length := by
  intro steps
  induction steps with
  | nil =>
      intro i st _ hinv
      rw [stepLoop_nil]
      exact hinv
  | cons step rest ih =>
      intro i st hlen hinv
      by_cases h1 : falsyStr step.tool = true
      · rw [stepLoop_cons_skip env step rest i st h1]
        refine ih (i + 1) _ ?_ ?_
        · show (st.trace ++ [skipEntry i step]).length = i + 1
          simp [hlen]
        · intro x hx
          have := hinv x hx
          show x.1 < (st.trace ++ [skipEntry i step]).length
          simp only [List.length_append, List.length_cons, List.length_nil]
          omega
      · have h1f : falsyStr step.tool = false := by simpa using h1
        match h2 : findScript env.scripts (step.tool.getD "") with
        | none =>
            rw [stepLoop_cons_notFound env step rest i st h1f h2]
            intro x hx
            have := hinv x hx
            show x.1 < (st.trace ++ [notFoundEntry i step (step.tool.getD "")]).length
            simp only [List.length_append, List.length_cons, List.length_nil]
            omega
        | some sd =>
            by_cases h3 : falsyStr sd.script_type = true
            · rw [stepLoop_cons_noType env step rest i st sd h1f h2 h3]
              intro x hx
              have := hinv x hx
              show x.1 < (st.trace ++ [noTypeEntry i step (step.tool.getD "")]).length
              simp only [List.length_append, List.length_cons, List.length_nil]
              omega
            · have h3f : falsyStr sd.script_type = false := by simpa using h3
              by_cases h4 : (missingParams sd.params
                  (extractedParams env st sd)).isEmpty = true
              · match h5 : env.exec i (sd.script_type.getD "") (step.tool.getD "")
                    (extractedParams env st sd) with
                | ⟨.error, output⟩ =>
                    rw [stepLoop_cons_exec_error env step rest i st sd output
                      h1f h2 h3f h4 h5]
                    intro x hx
                    show x.1 < (st.trace ++ [execEntry i step (step.tool.getD "")
                      (extractedParams env st sd) ⟨.error, output⟩]).length
                    simp only [List.length_append, List.length_cons, List.length_nil]
                    rcases List.mem_append.mp hx with hx | hx
                    · have := hinv x hx
                      omega
                    · rw [List.mem_singleton] at hx
                      subst hx
                      simp only
                      omega
                | ⟨.success, output⟩ =>
                    rw [stepLoop_cons_exec_success env step rest i st sd output
                      h1f h2 h3f h4 h5]
                    refine ih (i + 1) _ ?_ ?_
                    · show (st.trace ++ [execEntry i step (step.tool.getD "")
                        (extractedParams env st sd) ⟨.success, output⟩]).length = i + 1
                      simp [hlen]
                    · intro x hx
                      show x.1 < (st.trace ++ [execEntry i step (step.tool.getD "")
                        (extractedParams env st sd) ⟨.success, output⟩]).length
                      simp only [List.length_append, List.length_cons, List.length_nil]
                      rcases List.mem_append.mp hx with hx | hx
                      · have := hinv x hx
                        omega
                      · rw [List.mem_singleton] at hx
                        subst hx
                        simp only
                        omega
              · have h4f : (missingParams sd.params
                    (extractedParams env st sd)).isEmpty = false := by simpa using h4
                rw [stepLoop_cons_missing env step rest i st sd h1f h2 h3f h4f]
                intro x hx
                have := hinv x hx
                show x.1 < (st.trace ++ [missingEntry i step (step.tool.getD "")
                  (extractedParams env st sd)
                  (missingParams sd.params (extractedParams env st sd))]).length
                simp only [List.length_append, List.length_cons, List.length_nil]
                omega

/-- C3: in every run, an `error` entry can only be the final entry of
the trace (everything before the last entry is non-error), an `error`
entry forces the final status `"Error"`, a `skipped` entry that is not
for the final plan step is always followed by a further trace entry
(skips do not halt), and every recorded execution belongs to a step
that has a trace entry — so no step after the halting error entry is
ever executed. -/
theorem run_halts_on_error (env : AgentEnv) :
    (∀ e ∈ (ResolverAgent.run env).trace.dropLast, e.status ≠ .error) ∧
    ((∃ e ∈ (ResolverAgent.run env).trace, e.status = .error) →
      (ResolverAgent.run env).status = .error) ∧
    (∀ k, k < (ResolverAgent.run env).trace.length →
      ((ResolverAgent.run env).trace.getD k dfltEntry).status = .skipped →
      k + 1 < env.planSteps.length →
      k + 1 < (ResolverAgent.run env).trace.length) ∧
    (∀ x ∈ (ResolverAgent.run env).execLog,
      x.1 < (ResolverAgent.run env).trace.length) := by
  unfold ResolverAgent.run
  split
  · refine ⟨?_, ?_, ?_, ?_⟩ <;> simp
  · split
    · refine ⟨?_, ?_, ?_, ?_⟩ <;> simp
    · have hempty : errorFreeTrace
          (persistState env
            { trace := [], persistLog := [], execLog := [],
              ctx := env.incident }).trace := by
        intro e he
        exact absurd he (List.not_mem_nil e)
      refine ⟨stepLoop_dropLast_errorFree env _ 0 _ hempty, ?_, ?_, ?_⟩
      · rintro ⟨e, he, hst⟩
        by_contra hne
        exact stepLoop_noError_trace env _ 0 _ hempty hne e he hst
      · intro k hk hsk hb
        exact stepLoop_skip_continues env env.planSteps 0
          (persistState env
            { trace := [], persistLog := [], execLog := [], ctx := env.incident })
          rfl k hk hsk (by omega)
      · refine stepLoop_execLog_lt env _ 0 _ rfl ?_
        intro x hx
        exact absurd hx (List.not_mem_nil x)

/-- Witness for C3 at a concrete three-step environment whose second
step fails to execute. -/
theorem run_halts_on_error_witness :
    (∀ e ∈ (ResolverAgent.run
        ⟨[ScoredPoint.mk "a" "t" "i" [] [] 1],
          [PlanStep.mk (some "manual") none,
            PlanStep.mk (some "run fix") (some "fix_it"),
            PlanStep.mk (some "later") (some "fix_it")],
          [ScriptDetails.mk (some "1") "fix_it" (some "shell_script") []],
          [], fun _ _ => [],
          fun _ _ _ _ => ⟨.error, "exit 1"⟩⟩).trace.dropLast,
      e.status ≠ .error) ∧
    ((∃ e ∈ (ResolverAgent.run
        ⟨[ScoredPoint.mk "a" "t" "i" [] [] 1],
          [PlanStep.mk (some "manual") none,
            PlanStep.mk (some "run fix") (some "fix_it"),
            PlanStep.mk (some "later") (some "fix_it")],
          [ScriptDetails.mk (some "1") "fix_it" (some "shell_script") []],
          [], fun _ _ => [],
          fun _ _ _ _ => ⟨.error, "exit 1"⟩⟩).trace, e.status = .error) →
      (ResolverAgent.run
        ⟨[ScoredPoint.mk "a" "t" "i" [] [] 1],
          [PlanStep.mk (some "manual") none,
            PlanStep.mk (some "run fix") (some "fix_it"),
            PlanStep.mk (some "later") (some "fix_it")],
          [ScriptDetails.mk (some "1") "fix_it" (some "shell_script") []],
          [], fun _ _ => [],
          fun _ _ _ _ => ⟨.error, "exit 1"⟩⟩).status = .error) ∧
    (∀ k, k < (ResolverAgent.run
        ⟨[ScoredPoint.mk "a" "t" "i" [] [] 1],
          [PlanStep.mk (some "manual") none,
            PlanStep.mk (some "run fix") (some "fix_it"),
            PlanStep.mk (some "later") (some "fix_it")],
          [ScriptDetails.mk (some "1") "fix_it" (some "shell_script") []],
          [], fun _ _ => [],
          fun _ _ _ _ => ⟨.error, "exit 1"⟩⟩).trace.length →
      ((ResolverAgent.run
        ⟨[ScoredPoint.mk "a" "t" "i" [] [] 1],
          [PlanStep.mk (some "manual") none,
            PlanStep.mk (some "run fix") (some "fix_it"),
            PlanStep.mk (some "later") (some "fix_it")],
          [ScriptDetails.mk (some "1") "fix_it" (some "shell_script") []],
          [], fun _ _ => [],
          fun _ _ _ _ => ⟨.error, "exit 1"⟩⟩).trace.getD k dfltEntry).status = .skipped →
      k + 1 < ([PlanStep.mk (some "manual") none,
            PlanStep.mk (some "run fix") (some "fix_it"),
            PlanStep.mk (some "later") (some "fix_it")] : List PlanStep).length →
      k + 1 < (ResolverAgent.run
        ⟨[ScoredPoint.mk "a" "t" "i" [] [] 1],
          [PlanStep.mk (some "manual") none,
            PlanStep.mk (some "run fix") (some "fix_it"),
            PlanStep.mk (some "later") (some "fix_it")],
          [ScriptDetails.mk (some "1") "fix_it" (some "shell_script") []],
          [], fun _ _ => [],
          fun _ _ _ _ => ⟨.error, "exit 1"⟩⟩).trace.length) ∧
    (∀ x ∈ (ResolverAgent.run
        ⟨[ScoredPoint.mk "a" "t" "i" [] [] 1],
          [PlanStep.mk (some "manual") none,
            PlanStep.mk (some "run fix") (some "fix_it"),
            PlanStep.mk (some "later") (some "fix_it")],
          [ScriptDetails.mk (some "1") "fix_it" (some "shell_script") []],
          [], fun _ _ => [],
          fun _ _ _ _ => ⟨.error, "exit 1"⟩⟩).execLog,
      x.1 < (ResolverAgent.run
        ⟨[ScoredPoint.mk "a" "t" "i" [] [] 1],
          [PlanStep.mk (some "manual") none,
            PlanStep.mk (some "run fix") (some "fix_it"),
            PlanStep.mk (some "later") (some "fix_it")],
          [ScriptDetails.mk (some "1") "fix_it" (some "shell_script") []],
          [], fun _ _ => [],
          fun _ _ _ _ => ⟨.error, "exit 1"⟩⟩).trace.length) :=
  run_halts_on_error
    ⟨[ScoredPoint.mk "a" "t" "i" [] [] 1],
      [PlanStep.mk (some "manual") none,
        PlanStep.mk (some "run fix") (some "fix_it"),
        PlanStep.mk (some "later") (some "fix_it")],
      [ScriptDetails.mk (some "1") "fix_it" (some "shell_script") []],
      [], fun _ _ => [],
      fun _ _ _ _ => ⟨.error, "exit 1"⟩⟩

/-! ### Missing required parameters halt the run (C6) -/

/-- C6: at any step of any run, when the step is resolved to a script
with a dispatch type and a non-empty declared parameter list, and the
extractor leaves at least one required, default-less parameter
empty/null, the loop records exactly one `error` entry whose output
names the missing parameters, persists it, halts the run with status
`"Error"`, and dispatches no execution (the execution log is
unchanged — neither this script nor any later step runs). -/
theorem missing_params_halt (env : AgentEnv) (step : PlanStep)
    (rest : List PlanStep) (i : Nat) (st : RunState) (name : String)
    (sd : ScriptDetails)
    (htool : step.tool = some name) (hname : name.isEmpty = false)
    (hfind : findScript env.scripts name = some sd)
    (htype : falsyStr sd.script_type = false)
    (hparams : sd.params.isEmpty = false)
    (hmiss : (missingParams sd.params
        (env.extract st.ctx sd.params)).isEmpty = false) :
    stepLoop env (step :: rest) i st =
      mkResult .error (pushTrace env st
        (missingEntry i step name (env.extract st.ctx sd.params)
          (missingParams sd.params (env.extract st.ctx sd.params)))) ∧
    (stepLoop env (step :: rest) i st).status = .error ∧
    (stepLoop env (step :: rest) i st).trace = st.trace ++
      [missingEntry i step name (env.extract st.ctx sd.params)
        (missingParams sd.params (env.extract st.ctx sd.params))] ∧
    (missingEntry i step name (env.extract st.ctx sd.params)
      (missingParams sd.params (env.extract st.ctx sd.params))).status = .error ∧
    (missingEntry i step name (env.extract st.ctx sd.params)
      (missingParams sd.params (env.extract st.ctx sd.params))).output =
      some ("Failed to extract required parameters: " ++
        joinComma (missingParams sd.params (env.extract st.ctx sd.params)) ++
        ".") ∧
    (stepLoop env (step :: rest) i st).execLog = st.execLog := by
  have h1f : falsyStr step.tool = false := by
    rw [htool]
    simpa [falsyStr] using hname
  have hgd : step.tool.getD "" = name := by rw [htool]; rfl
  have hext : extractedParams env st sd = env.extract st.ctx sd.params := by
    unfold extractedParams
    rw [hparams]
    simp
  have hmain := stepLoop_cons_missing env step rest i st sd h1f
    (by rw [hgd]; exact hfind) htype (by rw [hext]; exact hmiss)
  rw [hgd, hext] at hmain
  refine ⟨hmain, ?_, ?_, rfl, rfl, ?_⟩
  · rw [hmain]
    rfl
  · rw [hmain]
    rfl
  · rw [hmain]
    rfl

/-- Witness for C6: Scenario C — required `HOSTNAME` with no default,
extractor answers null. -/
theorem missing_params_halt_witness :
    (stepLoop
        ⟨[], [], [ScriptDetails.mk (some "1") "fix_host" (some "shell_script")
            [ParamSpec.mk "HOSTNAME" "string" true none]],
          [], fun _ _ => [("HOSTNAME", none)],
          fun _ _ _ _ => ⟨.success, "ok"⟩⟩
        (PlanStep.mk (some "Fix the host") (some "fix_host") :: [])
        0 ⟨[], [], [], []⟩ =
      mkResult .error (pushTrace
        ⟨[], [], [ScriptDetails.mk (some "1") "fix_host" (some "shell_script")
            [ParamSpec.mk "HOSTNAME" "string" true none]],
          [], fun _ _ => [("HOSTNAME", none)],
          fun _ _ _ _ => ⟨.success, "ok"⟩⟩
        ⟨[], [], [], []⟩
        (missingEntry 0 (PlanStep.mk (some "Fix the host") (some "fix_host"))
          "fix_host" [("HOSTNAME", none)] ["HOSTNAME"]))) ∧
    (stepLoop
        ⟨[], [], [ScriptDetails.mk (some "1") "fix_host" (some "shell_script")
            [ParamSpec.mk "HOSTNAME" "string" true none]],
          [], fun _ _ => [("HOSTNAME", none)],
          fun _ _ _ _ => ⟨.success, "ok"⟩⟩
        (PlanStep.mk (some "Fix the host") (some "fix_host") :: [])
        0 ⟨[], [], [], []⟩).status = .error ∧
    (stepLoop
        ⟨[], [], [ScriptDetails.mk (some "1") "fix_host" (some "shell_script")
            [ParamSpec.mk "HOSTNAME" "string" true none]],
          [], fun _ _ => [("HOSTNAME", none)],
          fun _ _ _ _ => ⟨.success, "ok"⟩⟩
        (PlanStep.mk (some "Fix the host") (some "fix_host") :: [])
        0 ⟨[], [], [], []⟩).trace = [] ++
      [missingEntry 0 (PlanStep.mk (some "Fix the host") (some "fix_host"))
        "fix_host" [("HOSTNAME", none)] ["HOSTNAME"]] ∧
    (missingEntry 0 (PlanStep.mk (some "Fix the host") (some "fix_host"))
      "fix_host" [("HOSTNAME", none)] ["HOSTNAME"]).status = .error ∧
    (missingEntry 0 (PlanStep.mk (some "Fix the host") (some "fix_host"))
      "fix_host" [("HOSTNAME", none)] ["HOSTNAME"]).output =
      some ("Failed to extract required parameters: " ++
        joinComma ["HOSTNAME"] ++ ".") ∧
    (stepLoop
        ⟨[], [], [ScriptDetails.mk (some "1") "fix_host" (some "shell_script")
            [ParamSpec.mk "HOSTNAME" "string" true none]],
          [], fun _ _ => [("HOSTNAME", none)],
          fun _ _ _ _ => ⟨.success, "ok"⟩⟩
        (PlanStep.mk (some "Fix the host") (some "fix_host") :: [])
        0 ⟨[], [], [], []⟩).execLog = (RunState.mk [] [] [] []).execLog := by
  exact missing_params_halt
    ⟨[], [], [ScriptDetails.mk (some "1") "fix_host" (some "shell_script")
        [ParamSpec.mk "HOSTNAME" "string" true none]],
      [], fun _ _ => [("HOSTNAME", none)],
      fun _ _ _ _ => ⟨.success, "ok"⟩⟩
    (PlanStep.mk (some "Fix the host") (some "fix_host")) [] 0
    ⟨[], [], [], []⟩ "fix_host"
    (ScriptDetails.mk (some "1") "fix_host" (some "shell_script")
      [ParamSpec.mk "HOSTNAME" "string" true none])
    rfl rfl rfl rfl rfl rfl

end Iira
